import Mathlib

/-!
# Verification of the yahoo-ffb-api normalization and analytics layer

A shallow embedding, in Lean 4, of the response-normalization and
matchup/roster analytics core of the `yfa` Python package:

* `yfa/models/common.py`  — extraction utilities (`extract_list_items`,
  `safe_int`, `safe_float`, `safe_str`);
* `yfa/models/matchup.py` — `TeamScore`, `Matchup`, `WeeklyScoreboard`,
  `SeasonResults` and their aggregation helpers;
* `yfa/models/roster.py`  — `PlayerStats`, `TeamRoster`;
* `yfa/models/detailed_matchup.py` — `PositionMatchup`, `DetailedMatchup`;
* `yfa/analysis.py`       — `WeeklyAnalyzer.calculate_skins_winners`,
  `calculate_survivor_results`, `calculate_power_rankings`, and the
  team-records portion of `export_season_summary`.

Modelling conventions.

* Wire JSON values are the inductive `JsonValue`.  Python `dict`s are
  association lists in insertion order (CPython dicts preserve insertion
  order); lookups take the first match, and keys are unique in every
  payload an actual dict can produce.
* Python `float` is modelled as `ℚ` (points come from discrete stat inputs
  at fixed precision).  `float(x)` / `int(x)` conversions are the partial
  functions `pyFloat` / `pyParseFloat` / `pyParseInt`; numeric-string
  parsing covers optionally signed decimal literals (exponent forms,
  `inf`/`nan` are not modelled — no claim touches them).  String scanning
  is done on character lists.
* Code that can raise an exception that escapes the function is modelled
  with `Option`: `none` is an escaped exception.  Assigning a value of the
  wrong shape to a typed pydantic field raises a validation error at
  construction time, hence also `none`.
* Python `set`s are insertion-ordered duplicate-free lists (`setAdd`);
  where the source iterates a set, iteration order is unspecified in
  CPython and the insertion order is the determinization.
* `str()` rendering of non-string scalars (`pyStr`) is only ever stored in
  display fields no claim inspects, so its rendering of non-integer
  numbers and containers is an abstraction.
-/

/-- A JSON value as produced by Python's `json` module: `None`, `bool`,
number (modelled as `ℚ`), string, list, or dict (insertion-ordered
association list). -/
inductive JsonValue where
  | null : JsonValue
  | bool (b : Bool) : JsonValue
  | num (q : ℚ) : JsonValue
  | str (s : String) : JsonValue
  | arr (items : List JsonValue) : JsonValue
  | obj (fields : List (String × JsonValue)) : JsonValue

/-- First-match association-list lookup, written with `if` so that
rewriting can evaluate concrete keys (the model of Python dict
indexing). -/
def dictLookup {κ α : Type} [DecidableEq κ] (k : κ) : List (κ × α) → Option α
  | [] => none
  | (k', v) :: rest => if k' = k then some v else dictLookup k rest

namespace JsonValue

/-- Python truthiness (`bool(v)`) of a JSON value: `None`, `False`, `0`,
`""`, `[]`, `{}` are falsy, everything else truthy. -/
def pyTruthy : JsonValue → Bool
  | .null => false
  | .bool b => b
  | .num q => decide (q ≠ 0)
  | .str s => !s.toList.isEmpty
  | .arr items => !items.isEmpty
  | .obj fields => !fields.isEmpty

/-- Dict lookup (`d[k]` / `k in d`): first matching key. -/
def lookupKey (fields : List (String × JsonValue)) (k : String) : Option JsonValue :=
  dictLookup k fields

/-- Dict `get` with default: `d.get(k, default)`. -/
def getD (fields : List (String × JsonValue)) (k : String) (default : JsonValue) : JsonValue :=
  (lookupKey fields k).getD default

/-- The fields of a dict, or `none` when the value is not a dict (an
attribute access such as `.get` on it would raise `AttributeError`). -/
def asObj : JsonValue → Option (List (String × JsonValue))
  | .obj fields => some fields
  | _ => none

/-- A string value, or `none`: assigning a non-string to a pydantic `str`
field raises a validation error. -/
def asString : JsonValue → Option String
  | .str s => some s
  | _ => none

end JsonValue

/-- Python `s.strip()` on the character list: drop whitespace from both
ends. -/
def pyStripChars (cs : List Char) : List Char :=
  ((cs.dropWhile Char.isWhitespace).reverse.dropWhile Char.isWhitespace).reverse

/-- Digits of a numeric literal folded to a natural number. -/
def digitsToNat (cs : List Char) : ℕ :=
  cs.foldl (fun n c => 10 * n + (c.toNat - 48)) 0

/-- Split an optional leading sign off a stripped numeric literal;
`true` means negative. -/
def splitSign : List Char → Bool × List Char
  | '-' :: rest => (true, rest)
  | '+' :: rest => (false, rest)
  | cs => (false, cs)

/-- Split a character list at `'.'` separators. -/
def splitOnDot (cs : List Char) : List (List Char) :=
  cs.foldr
    (fun c acc =>
      match acc with
      | cur :: rest => if c = '.' then [] :: cur :: rest else (c :: cur) :: rest
      | [] => [[c]])
    [[]]

/-- Python `int(s)` on a string: optional surrounding whitespace, optional
sign, one or more digits; anything else raises `ValueError` (`none`). -/
def pyParseInt (s : String) : Option ℤ :=
  let (neg, body) := splitSign (pyStripChars s.toList)
  if !body.isEmpty && body.all Char.isDigit then
    let n : ℤ := digitsToNat body
    some (if neg then -n else n)
  else none

/-- Python `float(s)` on a string: optional surrounding whitespace,
optional sign, decimal digits with an optional fractional part (at least
one digit overall); anything else raises `ValueError` (`none`). -/
def pyParseFloat (s : String) : Option ℚ :=
  let (neg, body) := splitSign (pyStripChars s.toList)
  let mk := fun (q : ℚ) => some (if neg then -q else q)
  match splitOnDot body with
  | [a] =>
    if !a.isEmpty && a.all Char.isDigit then mk (digitsToNat a) else none
  | [a, b] =>
    if !(a.isEmpty && b.isEmpty) && a.all Char.isDigit && b.all Char.isDigit then
      mk ((digitsToNat a : ℚ) + (digitsToNat b : ℚ) / 10 ^ b.length)
    else none
  | _ => none

/-- Truncation toward zero, the behaviour of Python `int()` on a float. -/
def ratTrunc (q : ℚ) : ℤ :=
  if q < 0 then ⌈q⌉ else ⌊q⌋

/-- Python `float(v)` on a JSON value: numbers pass through, booleans map
to 0/1, strings are parsed; lists, dicts and `None` raise (`none`). -/
def pyFloat : JsonValue → Option ℚ
  | .num q => some q
  | .bool b => some (if b then 1 else 0)
  | .str s => pyParseFloat s
  | _ => none

/-- Python `str(v)` rendering; always succeeds.  Only stored in display
fields no claim inspects, so the rendering of non-integer numbers and of
containers is an abstraction. -/
def pyStr : JsonValue → String
  | .str s => s
  | .bool true => "True"
  | .bool false => "False"
  | .null => "None"
  | .num q => if q.den = 1 then toString q.num else toString q.num ++ "/" ++ toString q.den
  | .arr _ => "<list>"
  | .obj _ => "<dict>"

/-- Python `s.startswith(p)`, evaluated on character lists. -/
def pyStartsWith (s p : String) : Bool :=
  go p.toList s.toList
where
  go : List Char → List Char → Bool
    | [], _ => true
    | _ :: _, [] => false
    | a :: as, b :: bs => decide (a = b) && go as bs

/-- Python `set.add` on an insertion-ordered duplicate-free list. -/
def setAdd (s : List String) (x : String) : List String :=
  if x ∈ s then s else s ++ [x]

/-- Write `d[k] = v` on an insertion-ordered association list: overwrite in
place when the key exists, else append. -/
def dictWrite (d : List (String × α)) (k : String) (v : α) : List (String × α) :=
  if (dictLookup k d).isSome then
    d.map fun p => if p.1 = k then (k, v) else p
  else d ++ [(k, v)]

/-! ## `yfa/models/common.py` — extraction utilities -/

/-- `extract_list_items(data, item_key)`: returns `[]` for falsy input; for
a dict returns the value under `item_key` when present, else the dict
itself, as a one-element list; for a list unwraps each dict element through
`item_key` when present; for any other value returns `[]`. -/
def extract_list_items (data : JsonValue) (item_key : String) : List JsonValue :=
  if data.pyTruthy = false then []
  else
    match data with
    | .obj fields =>
      match JsonValue.lookupKey fields item_key with
      | some v => [v]
      | none => [data]
    | .arr items =>
      items.map fun item =>
        match item with
        | .obj fields =>
          match JsonValue.lookupKey fields item_key with
          | some v => v
          | none => item
        | _ => item
    | _ => []

/-- `safe_int(value, default)`: `None` and empty/whitespace-only strings
give the default; numeric strings parse; booleans convert as `int(bool)`
(0/1); numbers truncate toward zero; lists/dicts raise a caught
`TypeError`, giving the default. -/
def safe_int (value : JsonValue) (default : ℤ) : ℤ :=
  match value with
  | .null => default
  | .str s =>
    if (pyStripChars s.toList).isEmpty then default
    else (pyParseInt s).getD default
  | .bool b => if b then 1 else 0
  | .num q => ratTrunc q
  | .arr _ => default
  | .obj _ => default

/-- `safe_float(value, default)`: `None` and empty/whitespace-only strings
give the default; numeric strings parse; booleans convert as `float(bool)`
(0.0/1.0); numbers pass through; lists/dicts raise a caught `TypeError`,
giving the default. -/
def safe_float (value : JsonValue) (default : ℚ) : ℚ :=
  match value with
  | .null => default
  | .str s =>
    if (pyStripChars s.toList).isEmpty then default
    else (pyParseFloat s).getD default
  | .bool b => if b then 1 else 0
  | .num q => q
  | .arr _ => default
  | .obj _ => default

/-- `safe_str(value, default)`: `None` gives the default, everything else
is rendered with `str()`. -/
def safe_str (value : JsonValue) (default : String) : String :=
  match value with
  | .null => default
  | v => pyStr v

/-! ## `yfa/models/matchup.py` — team scores, matchups, season results

The optional detailed stat fields of the Python models that no code path
ever assigns (`roster_positions` is kept; the per-stat `passing_yards` &c.
of `PlayerStats` are omitted as always-`None`). -/

/-- `TeamScore`: one team's realized score for one week. -/
structure TeamScore where
  team_key : String
  team_id : String
  team_name : String
  week : ℕ
  points : ℚ
  projected_points : Option ℚ := none
  roster_positions : List JsonValue := []
  is_tied : Bool := false
  is_playoffs : Bool := false

/-- State of the `for item in team_info_list` scan of
`TeamScore.from_api_data`: mutable `team_key` (raw value, validated at
construction), `team_id` (already passed through `str()`), `team_name`
(raw value). -/
structure TeamInfoScan where
  team_key : JsonValue := .str ""
  team_id : String := ""
  team_name : JsonValue := .str ""

/-- The `if "team_key" in item: ... elif "team_id" ... elif "name" ...`
chain of `TeamScore.from_api_data`, one item. -/
def teamInfoStep (st : TeamInfoScan) (item : JsonValue) : TeamInfoScan :=
  match item with
  | .obj fields =>
    match JsonValue.lookupKey fields "team_key" with
    | some v => { st with team_key := v }
    | none =>
      match JsonValue.lookupKey fields "team_id" with
      | some v => { st with team_id := pyStr v }
      | none =>
        match JsonValue.lookupKey fields "name" with
        | some v => { st with team_name := v }
        | none => st
  | _ => st

/-- Final construction step of `TeamScore.from_api_data`: the `cls(...)`
call, validating the raw `team_key` / `name` values as strings. -/
def TeamScore.build (st : TeamInfoScan) (points? : Option ℚ)
    (projected? : Option (Option ℚ)) : Option TeamScore := do
  let points ← points?
  let projected ← projected?
  let team_key ← st.team_key.asString
  let team_name ← st.team_name.asString
  pure
    { team_key := team_key
      team_id := st.team_id
      team_name := team_name
      week := 0
      points := points
      projected_points := projected
      roster_positions := []
      is_tied := false
      is_playoffs := false }

/-- `TeamScore.from_api_data`: unwraps the two-element
`[team_info_list, stats_info]` array; `none` is a raised exception
(a failed `float()` or a pydantic validation error). -/
def TeamScore.from_api_data (data : JsonValue) : Option TeamScore :=
  let (st, points?, projected?) :=
    match data with
    | .arr (item0 :: item1 :: _) =>
        let team_info_list : List JsonValue :=
          match item0 with
          | .arr l => l
          | _ => []
        let stats_info : List (String × JsonValue) :=
          match item1 with
          | .obj f => f
          | _ => []
        let st := team_info_list.foldl teamInfoStep {}
        let points? : Option ℚ :=
          match JsonValue.getD stats_info "team_points" .null with
          | .obj f => pyFloat (JsonValue.getD f "total" (.num 0))
          | _ => some 0
        let projected? : Option (Option ℚ) :=
          match JsonValue.getD stats_info "team_projected_points" .null with
          | .obj f =>
            match JsonValue.lookupKey f "total" with
            | none | some .null => some none
            | some v => (pyFloat v).map some
          | _ => some none
        (st, points?, projected?)
    | _ => ({}, some 0, some none)
  TeamScore.build st points? projected?

/-- `Matchup`: two team scores for a shared week with derived results. -/
structure Matchup where
  week : ℕ
  matchup_id : Option String := none
  team1 : TeamScore
  team2 : TeamScore
  winner_team_key : Option String := none
  margin_of_victory : ℚ := 0
  is_tied : Bool := false
  status : String := "unknown"
  is_playoffs : Bool := false
  playoff_tier : Option ℤ := none
  is_consolation : Bool := false

/-- `matchup_info = data.get("matchup", {}) if "matchup" in data else data`
(shared between `Matchup.from_api_data` and `matchupTieFlag`). -/
def matchupInfoOf (data : JsonValue) (fields : List (String × JsonValue)) : JsonValue :=
  if (JsonValue.lookupKey fields "matchup").isSome then
    JsonValue.getD fields "matchup" (.obj [])
  else data

/-- The `matchup_info` dict fields reached by `Matchup.from_api_data`:
`data` must be a dict, and so must the matchup-info value (else an
`AttributeError`/`TypeError` is raised — a non-dict `data` always ends in
a raised exception). -/
def matchupInfoFields (data : JsonValue) : Option (List (String × JsonValue)) := do
  let fields ← data.asObj
  (matchupInfoOf data fields).asObj

/-- The two raw team arrays at `matchup_info.0.teams.{0,1}.team` and their
`TeamScore` parses (exceptions propagate as `none`). -/
def matchupTeams (mf : List (String × JsonValue)) : Option (TeamScore × TeamScore) := do
  let tc ← (JsonValue.getD mf "0" (.obj [])).asObj
  let td ← (JsonValue.getD tc "teams" (.obj [])).asObj
  let t0 ← (JsonValue.getD td "0" (.obj [])).asObj
  let team1_data := JsonValue.getD t0 "team" (.arr [])
  let t1 ← (JsonValue.getD td "1" (.obj [])).asObj
  let team2_data := JsonValue.getD t1 "team" (.arr [])
  let team1 ← TeamScore.from_api_data team1_data
  let team2 ← TeamScore.from_api_data team2_data
  pure (team1, team2)

/-- `matchup_info.get("winner_team_key")`, validated as `Optional[str]`. -/
def matchupWinnerKey (mf : List (String × JsonValue)) : Option (Option String) :=
  match JsonValue.lookupKey mf "winner_team_key" with
  | none | some .null => some none
  | some v => v.asString.map some

/-- `matchup_info.get("status", "unknown")`, validated as `str`. -/
def matchupStatus (mf : List (String × JsonValue)) : Option String :=
  match JsonValue.lookupKey mf "status" with
  | none => some "unknown"
  | some v => v.asString

namespace Matchup

/-- `Matchup.from_api_data(data, week)`: locate the matchup-info dict,
parse the two nested team scores and stamp them with the week, read the
API winner key, derive `margin_of_victory` as the absolute point
difference and `is_tied` as "API tie flag truthy or points exactly
equal". -/
def from_api_data (data : JsonValue) (week : ℕ) : Option Matchup := do
  let mf ← matchupInfoFields data
  let (team1', team2') ← matchupTeams mf
  let team1 := { team1' with week := week }
  let team2 := { team2' with week := week }
  let winner_team_key ← matchupWinnerKey mf
  let margin := |team1.points - team2.points|
  let is_tied := (JsonValue.getD mf "is_tied" (.num 0)).pyTruthy
    || decide (team1.points = team2.points)
  let status ← matchupStatus mf
  let is_playoffs := (JsonValue.getD mf "is_playoffs" (.num 0)).pyTruthy
  let is_consolation := (JsonValue.getD mf "is_consolation" (.num 0)).pyTruthy
  pure
    { week := week
      matchup_id := some (pyStr (JsonValue.getD mf "week" (.num week)))
      team1 := team1
      team2 := team2
      winner_team_key := winner_team_key
      margin_of_victory := margin
      is_tied := is_tied
      status := status
      is_playoffs := is_playoffs
      playoff_tier := none
      is_consolation := is_consolation }

/-- `get_winning_team`: `None` when tied, else the higher-scoring side
(team2 on equal points, unreachable since equal points imply a tie). -/
def get_winning_team (m : Matchup) : Option TeamScore :=
  if m.is_tied then none
  else if m.team1.points > m.team2.points then some m.team1
  else some m.team2

/-- `get_losing_team`: `None` when tied, else the lower-scoring side. -/
def get_losing_team (m : Matchup) : Option TeamScore :=
  if m.is_tied then none
  else if m.team1.points > m.team2.points then some m.team2
  else some m.team1

/-- `get_team_opponent(team_key)`. -/
def get_team_opponent (m : Matchup) (team_key : String) : Option TeamScore :=
  if m.team1.team_key = team_key then some m.team2
  else if m.team2.team_key = team_key then some m.team1
  else none

end Matchup

/-- `WeeklyScoreboard`: one week's matchups. -/
structure WeeklyScoreboard where
  week : ℕ
  league_key : String
  matchups : List Matchup := []
  is_current_week : Bool := false
  week_start : Option String := none
  week_end : Option String := none

namespace WeeklyScoreboard

/-- `get_matchup_by_team(team_key)`: first matchup containing the key. -/
def get_matchup_by_team (sb : WeeklyScoreboard) (team_key : String) : Option Matchup :=
  sb.matchups.find? fun m =>
    decide (m.team1.team_key = team_key) || decide (m.team2.team_key = team_key)

/-- `get_team_score(team_key)`. -/
def get_team_score (sb : WeeklyScoreboard) (team_key : String) : Option TeamScore :=
  match sb.get_matchup_by_team team_key with
  | some m =>
    if m.team1.team_key = team_key then some m.team1
    else if m.team2.team_key = team_key then some m.team2
    else none
  | none => none

end WeeklyScoreboard

/-- `SeasonResults`: accumulated weekly scoreboards, keyed by week.  The
association list is the dict's insertion-ordered item view; week keys are
unique (a dict cannot hold duplicates). -/
structure SeasonResults where
  league_key : String
  season : String
  weekly_scoreboards : List (ℕ × WeeklyScoreboard) := []

namespace SeasonResults

/-- `week in self.weekly_scoreboards` / `self.weekly_scoreboards[week]`. -/
def lookupWeek (r : SeasonResults) (w : ℕ) : Option WeeklyScoreboard :=
  dictLookup w r.weekly_scoreboards

/-- `sorted(self.weekly_scoreboards.keys())`. -/
def sortedWeeks (r : SeasonResults) : List ℕ :=
  (r.weekly_scoreboards.map Prod.fst).insertionSort (· ≤ ·)

/-- The win/loss/tie record returned by `get_team_record`. -/
structure Record where
  wins : ℕ := 0
  losses : ℕ := 0
  ties : ℕ := 0

/-- `get_team_record(team_key)`: scans every stored week; counts only
`postevent` matchups containing the key; a tie increments `ties`, else the
API `winner_team_key` decides win vs loss. -/
def get_team_record (r : SeasonResults) (team_key : String) : Record :=
  r.weekly_scoreboards.foldl
    (fun rec wk =>
      match wk.2.get_matchup_by_team team_key with
      | some m =>
        if m.status = "postevent" then
          if m.is_tied then { rec with ties := rec.ties + 1 }
          else if m.winner_team_key = some team_key then { rec with wins := rec.wins + 1 }
          else { rec with losses := rec.losses + 1 }
        else rec
      | none => rec)
    {}

/-- `get_team_total_points(team_key)`: sums the team's weekly points over
all stored weeks, skipping weeks without the team. -/
def get_team_total_points (r : SeasonResults) (team_key : String) : ℚ :=
  r.weekly_scoreboards.foldl
    (fun total wk =>
      match wk.2.get_team_score team_key with
      | some ts => total + ts.points
      | none => total)
    0

end SeasonResults

/-! ## `yfa/models/roster.py` — player stats and team rosters -/

/-- `PlayerStats`: one player's single-week line.  The always-`None`
per-stat fields (`passing_yards` &c., never assigned by `from_api_data`)
are omitted. -/
structure PlayerStats where
  player_key : String
  player_id : String
  name : String
  position : String
  team : Option String := none
  points : ℚ
  projected_points : Option ℚ := none
  selected_position : String
  is_starter : Bool := false

/-- State of the `for item in player_metadata` scan of
`PlayerStats.from_api_data`: raw values are validated at construction. -/
structure PlayerMetaScan where
  player_key : JsonValue := .str ""
  player_id : String := ""
  name : JsonValue := .str ""
  team : JsonValue := .str ""
  position : JsonValue := .str ""

/-- The `if "player_key" in item: ... elif ...` chain of
`PlayerStats.from_api_data`, one metadata item.  `name` dict values are
unwrapped through `"full"` with fallback `"Unknown Player"`; non-dict
names pass through `str()`. -/
def playerMetaStep (st : PlayerMetaScan) (item : JsonValue) : PlayerMetaScan :=
  match item with
  | .obj fields =>
    match JsonValue.lookupKey fields "player_key" with
    | some v => { st with player_key := v }
    | none =>
      match JsonValue.lookupKey fields "player_id" with
      | some v => { st with player_id := pyStr v }
      | none =>
        match JsonValue.lookupKey fields "name" with
        | some v =>
          { st with name :=
              match v with
              | .obj f => JsonValue.getD f "full" (.str "Unknown Player")
              | _ => .str (pyStr v) }
        | none =>
          match JsonValue.lookupKey fields "editorial_team_abbr" with
          | some v => { st with team := v }
          | none =>
            match JsonValue.lookupKey fields "display_position" with
            | some v => { st with position := v }
            | none => st
  | _ => st

/-- The first dict in `sel_pos_array` carrying a `"position"` key (the
`for pos_item in sel_pos_array: ... break` loop). -/
def firstPositionValue : List JsonValue → Option JsonValue
  | [] => none
  | item :: rest =>
    match item with
    | .obj fields =>
      match JsonValue.lookupKey fields "position" with
      | some v => some v
      | none => firstPositionValue rest
    | _ => firstPositionValue rest

/-- Final construction step of `PlayerStats.from_api_data`: the `cls(...)`
call, validating the raw field values as strings; `is_starter` is
`not selected_position.startswith("BN")`. -/
def PlayerStats.build (st : PlayerMetaScan) (selVal : JsonValue) (points : ℚ)
    (projected : Option ℚ) : Option PlayerStats := do
  let player_key ← st.player_key.asString
  let name ← st.name.asString
  let position ← st.position.asString
  let team ← st.team.asString
  let selected_position ← selVal.asString
  pure
    { player_key := player_key
      player_id := st.player_id
      name := name
      position := position
      team := some team
      points := points
      projected_points := projected
      selected_position := selected_position
      is_starter := !pyStartsWith selected_position "BN" }

/-- `PlayerStats.from_api_data`: unwraps the three-element
`[metadata_array, position_info, stats_info]` player array; `none` is a
pydantic validation error escaping the constructor call. -/
def PlayerStats.from_api_data (data : JsonValue) : Option PlayerStats :=
  let (st, selVal, points, projected) :=
    match data with
    | .arr (item0 :: item1 :: item2 :: _) =>
      let player_metadata : List JsonValue :=
        match item0 with
        | .arr l => l
        | _ => []
      let position_info : List (String × JsonValue) :=
        match item1 with
        | .obj f => f
        | _ => []
      let stats_info : List (String × JsonValue) :=
        match item2 with
        | .obj f => f
        | _ => []
      let st := player_metadata.foldl playerMetaStep {}
      let selVal : JsonValue :=
        match JsonValue.lookupKey position_info "selected_position" with
        | some (.arr sel_pos_array) =>
          match firstPositionValue sel_pos_array with
          | some v => v
          | none => .str "BN"
        | _ => .str "BN"
      let points : ℚ :=
        match JsonValue.lookupKey stats_info "player_points" with
        | some (.obj f) =>
          match JsonValue.lookupKey f "total" with
          | none | some .null => 0
          | some v => safe_float v 0
        | _ => 0
      let projected : Option ℚ :=
        match JsonValue.lookupKey stats_info "player_projected_points" with
        | some (.obj f) =>
          match JsonValue.lookupKey f "total" with
          | none | some .null => none
          | some v => some (safe_float v 0)
        | _ => none
      (st, selVal, points, projected)
    | _ => ({}, .str "BN", 0, none)
  PlayerStats.build st selVal points projected

/-- `TeamRoster`: one team's full player list for one week, partitioned
into starters and bench, with point totals. -/
structure TeamRoster where
  team_key : String
  team_name : String
  week : ℕ
  players : List PlayerStats := []
  starters : List PlayerStats := []
  bench : List PlayerStats := []
  total_points : ℚ
  starter_points : ℚ
  bench_points : ℚ

/-- The per-player loop body of `TeamRoster.from_api_data`: falsy and
non-dict entries are skipped, entries without a `"player"` key are
skipped, and a parse failure is caught and skipped. -/
def rosterFoldStep (acc : List PlayerStats × List PlayerStats × List PlayerStats)
    (player_data : JsonValue) :
    List PlayerStats × List PlayerStats × List PlayerStats :=
  if player_data.pyTruthy = false then acc
  else
    match player_data with
    | .obj fields =>
      match JsonValue.lookupKey fields "player" with
      | some pv =>
        match PlayerStats.from_api_data pv with
        | some ps =>
          let (players, starters, bench) := acc
          if ps.is_starter then (players ++ [ps], starters ++ [ps], bench)
          else (players ++ [ps], starters, bench ++ [ps])
        | none => acc
      | none => acc
    | _ => acc

/-- The `player_data_items` normalization of `TeamRoster.from_api_data`:
an array is taken as is; a dict contributes its values in insertion order,
skipping the `"count"` sentinel; anything else yields nothing. -/
def playerItemsOf (players_container : JsonValue) : List JsonValue :=
  match players_container with
  | .arr l => l
  | .obj f => f.filterMap fun kv => if kv.1 = "count" then none else some kv.2
  | _ => []

/-- Final construction step of `TeamRoster.from_api_data` from the
accumulated `(players, starters, bench)` triple: the `cls(...)` call with
the three point totals. -/
def TeamRoster.build (team_key team_name : String) (week : ℕ)
    (psb : List PlayerStats × List PlayerStats × List PlayerStats) : TeamRoster :=
  { team_key := team_key
    team_name := team_name
    week := week
    players := psb.1
    starters := psb.2.1
    bench := psb.2.2
    total_points := (psb.1.map PlayerStats.points).sum
    starter_points := (psb.2.1.map PlayerStats.points).sum
    bench_points := (psb.2.2.map PlayerStats.points).sum }

/-- `TeamRoster.from_api_data(data, team_key, team_name, week)`: locates
`roster.0.players`, normalizes the list-vs-numeric-keys container shape
(skipping the `"count"` sentinel), parses players, and totals points.
`none` is a structural `AttributeError` on a non-dict `.get` target. -/
def TeamRoster.from_api_data (data : JsonValue) (team_key team_name : String)
    (week : ℕ) : Option TeamRoster := do
  let fields ← data.asObj
  let roster_data := JsonValue.getD fields "roster" (.obj [])
  let rd ← roster_data.asObj
  let r0 ← (JsonValue.getD rd "0" (.obj [])).asObj
  pure (TeamRoster.build team_key team_name week
    ((playerItemsOf (JsonValue.getD r0 "players" (.obj []))).foldl
      rosterFoldStep ([], [], [])))

/-! ## `yfa/models/detailed_matchup.py` — position-by-position comparison -/

/-- `PositionMatchup`: one lineup slot compared across the two teams;
`none` is a null-padded side. -/
structure PositionMatchup where
  position : String
  team1_player : Option PlayerStats := none
  team2_player : Option PlayerStats := none

namespace PositionMatchup

/-- `points_difference`: team1 minus team2, a null side contributing 0. -/
def points_difference (pm : PositionMatchup) : ℚ :=
  (pm.team1_player.map PlayerStats.points).getD 0
    - (pm.team2_player.map PlayerStats.points).getD 0

/-- `winner`: `"team1"` / `"team2"` by sign of the difference, `None` on a
tie. -/
def winner (pm : PositionMatchup) : Option String :=
  if pm.points_difference > 0 then some "team1"
  else if pm.points_difference < 0 then some "team2"
  else none

end PositionMatchup

/-- Group a starter list by `selected_position` into an insertion-ordered
dict of occupant lists (the `team1_positions` / `team2_positions` build
loops of `DetailedMatchup.create`). -/
def groupBySelectedPosition (starters : List PlayerStats) :
    List (String × List PlayerStats) :=
  starters.foldl
    (fun d p =>
      let pos := p.selected_position
      dictWrite d pos (((dictLookup pos d).getD []) ++ [p]))
    []

/-- The fixed slot priority order of `DetailedMatchup.create`. -/
def position_order : List String := ["QB", "RB", "WR", "TE", "W/R/T", "K", "DEF", "IR"]

/-- First-seen-order duplicate removal; determinizes the iteration order
of the Python `set` union `team1_positions.keys() | team2_positions.keys()`
(CPython set order is unspecified). -/
def dedupFirst (l : List String) : List String :=
  l.foldl (fun acc x => if x ∈ acc then acc else acc ++ [x]) []

/-- `max(len(team1_positions.get(pos, [])), len(team2_positions.get(pos, [])))`. -/
def slotCount (g1 g2 : List (String × List PlayerStats)) (pos : String) : ℕ :=
  max ((dictLookup pos g1).getD []).length ((dictLookup pos g2).getD []).length

/-- The `sorted_positions` list of `DetailedMatchup.create`: each slot in
priority order repeated `slotCount` times, then unrecognized slots in
first-seen order. -/
def sortedPositionsList (g1 g2 : List (String × List PlayerStats))
    (all_positions : List String) : List String :=
  (position_order.filter (· ∈ all_positions)).flatMap
      (fun pos => List.replicate (slotCount g1 g2 pos) pos)
    ++ (all_positions.filter (· ∉ position_order)).flatMap
      (fun pos => List.replicate (slotCount g1 g2 pos) pos)

/-- The pairing of the i-th occupants of a slot across the two grouped
starter dicts, null-padding a missing side
(`team1_players[i] if i < len(team1_players) else None`). -/
def slotPairAt (g1 g2 : List (String × List PlayerStats)) (pos : String)
    (i : ℕ) : PositionMatchup :=
  { position := pos
    team1_player := ((dictLookup pos g1).getD [])[i]?
    team2_player := ((dictLookup pos g2).getD [])[i]? }

/-- One step of the position-matchup build loop of
`DetailedMatchup.create`: look up the per-position occurrence counter,
pair the i-th occupants (null-padding the shorter side), and bump the
counter. -/
def starterSlotStep (g1 g2 : List (String × List PlayerStats))
    (st : List (String × ℕ) × List PositionMatchup) (pos : String) :
    List (String × ℕ) × List PositionMatchup :=
  let i := (dictLookup pos st.1).getD 0
  (dictWrite st.1 pos (i + 1), st.2 ++ [slotPairAt g1 g2 pos i])

/-- The position-matchup build loop of `DetailedMatchup.create`: walk
`sorted_positions` with the per-position occurrence counters. -/
def buildStarterMatchups (g1 g2 : List (String × List PlayerStats))
    (slots : List String) : List PositionMatchup :=
  (slots.foldl (starterSlotStep g1 g2) ([], [])).2

/-- `DetailedMatchup`: head-to-head roster comparison. -/
structure DetailedMatchup where
  week : ℕ
  matchup_id : Option String := none
  team1_roster : TeamRoster
  team2_roster : TeamRoster
  starter_matchups : List PositionMatchup := []
  bench_matchups : List PositionMatchup := []

namespace DetailedMatchup

/-- The starter pairing of `DetailedMatchup.create` for two rosters. -/
def starterMatchups (team1_roster team2_roster : TeamRoster) : List PositionMatchup :=
  let g1 := groupBySelectedPosition team1_roster.starters
  let g2 := groupBySelectedPosition team2_roster.starters
  let all_positions := dedupFirst (g1.map Prod.fst ++ g2.map Prod.fst)
  buildStarterMatchups g1 g2 (sortedPositionsList g1 g2 all_positions)

/-- The bench pairing of `DetailedMatchup.create`: each bench sorted by
descending points (stable), paired by rank with null padding. -/
def benchMatchups (team1_roster team2_roster : TeamRoster) : List PositionMatchup :=
  let team1_bench := team1_roster.bench.insertionSort
    (fun a b => b.points ≤ a.points)
  let team2_bench := team2_roster.bench.insertionSort
    (fun a b => b.points ≤ a.points)
  (List.range (max team1_bench.length team2_bench.length)).map fun i =>
    { position := "BN", team1_player := team1_bench[i]?,
      team2_player := team2_bench[i]? }

/-- `DetailedMatchup.create`. -/
def create (team1_roster team2_roster : TeamRoster) (week : ℕ)
    (matchup_id : Option String := none) : DetailedMatchup :=
  { week := week
    matchup_id := matchup_id
    team1_roster := team1_roster
    team2_roster := team2_roster
    starter_matchups := starterMatchups team1_roster team2_roster
    bench_matchups := benchMatchups team1_roster team2_roster }

end DetailedMatchup

/-! ## `yfa/analysis.py` — WeeklyAnalyzer -/

/-- One recorded skins win:
`{"week": ..., "margin": ..., "pot_amount": ..., "opponent": ...}`. -/
structure SkinsRecord where
  week : ℕ
  margin : ℚ
  pot_amount : ℚ
  opponent : Option String

/-- One potential skins winner of a week: the winning team score, the
margin, and the matchup it came from. -/
structure SkinsCandidate where
  team : TeamScore
  margin : ℚ
  matchup : Matchup

/-- The potential-winner scan of `calculate_skins_winners`: matchups that
are untied, `postevent`, and have margin at or above the threshold; the
winning side is present since untied. -/
def skinsPotentialWinners (min_skins_margin : ℚ) (sb : WeeklyScoreboard) :
    List SkinsCandidate :=
  sb.matchups.filterMap fun m =>
    if ¬m.is_tied ∧ m.status = "postevent" ∧ m.margin_of_victory ≥ min_skins_margin then
      (m.get_winning_team).map fun w =>
        { team := w, margin := m.margin_of_victory, matchup := m }
    else none

/-- Python `max(candidates, key=lambda x: x["margin"])`: the first
candidate of maximal margin. -/
def maxByMargin (c : SkinsCandidate) (rest : List SkinsCandidate) : SkinsCandidate :=
  rest.foldl (fun best x => if x.margin > best.margin then x else best) c

/-- Append a skins record under a team name
(`skins_winners[name].append(rec)` with a fresh empty list on first
win). -/
def appendSkinsRecord (winners : List (String × List SkinsRecord)) (name : String)
    (rec : SkinsRecord) : List (String × List SkinsRecord) :=
  dictWrite winners name (((dictLookup name winners).getD []) ++ [rec])

/-- The per-week body of `calculate_skins_winners`: state is
`(skins_winners, current_pot)`. -/
def skinsStep (min_skins_margin weekly_pot : ℚ)
    (st : List (String × List SkinsRecord) × ℚ) (week_num : ℕ)
    (sb : WeeklyScoreboard) : List (String × List SkinsRecord) × ℚ :=
  let (winners, current_pot) := st
  match skinsPotentialWinners min_skins_margin sb with
  | [] => (winners, current_pot + weekly_pot)
  | c :: rest =>
    let week_winner := maxByMargin c rest
    let winning_team := week_winner.team
    let win_record : SkinsRecord :=
      { week := week_num
        margin := week_winner.margin
        pot_amount := current_pot
        opponent :=
          (week_winner.matchup.get_team_opponent winning_team.team_key).map
            TeamScore.team_name }
    (appendSkinsRecord winners winning_team.team_name win_record, weekly_pot)

/-- `WeeklyAnalyzer.calculate_skins_winners(season_results, weekly_pot)`
with the analyzer's `min_skins_margin`: folds `skinsStep` over the weeks
in ascending order starting from pot `weekly_pot`; the final pot is
discarded. -/
def calculate_skins_winners (min_skins_margin : ℚ) (season_results : SeasonResults)
    (weekly_pot : ℚ) : List (String × List SkinsRecord) :=
  (season_results.sortedWeeks.foldl
    (fun st week_num =>
      match season_results.lookupWeek week_num with
      | some sb => skinsStep min_skins_margin weekly_pot st week_num sb
      | none => st)
    ([], weekly_pot)).1

/-- One survivor elimination record. -/
structure SurvivorElimination where
  week : ℕ
  eliminated_team : String
  eliminated_score : ℚ
  remaining_teams : ℕ

/-- The survivor-pool result. -/
structure SurvivorResult where
  winner : Option String
  eliminations : List SurvivorElimination
  final_active_teams : List String

/-- The active-team weekly score dict of `calculate_survivor_results`:
each matchup writes both sides' scores for teams still active, keyed by
team name. -/
def survivorWeekScores (active_teams : List String) (sb : WeeklyScoreboard) :
    List (String × ℚ) :=
  sb.matchups.foldl
    (fun week_scores m =>
      let week_scores :=
        if m.team1.team_name ∈ active_teams then
          dictWrite week_scores m.team1.team_name m.team1.points
        else week_scores
      if m.team2.team_name ∈ active_teams then
        dictWrite week_scores m.team2.team_name m.team2.points
      else week_scores)
    []

/-- Python `min(items, key=lambda x: x[1])`: first entry of minimal
score. -/
def minByScore : List (String × ℚ) → Option (String × ℚ)
  | [] => none
  | x :: xs => some (xs.foldl (fun best y => if y.2 < best.2 then y else best) x)

/-- The elimination loop of `calculate_survivor_results` over the
configured weeks: stops once at most one team is active; weeks with no
stored scoreboard, or whose scoreboard yields no active-team score, are
skipped. -/
def survivorLoop (season_results : SeasonResults) :
    List ℕ → List String → List SurvivorElimination →
      List String × List SurvivorElimination
  | [], active_teams, eliminations => (active_teams, eliminations)
  | week :: rest, active_teams, eliminations =>
    if active_teams.length ≤ 1 then (active_teams, eliminations)
    else
      match season_results.lookupWeek week with
      | none => survivorLoop season_results rest active_teams eliminations
      | some sb =>
        match minByScore (survivorWeekScores active_teams sb) with
        | none => survivorLoop season_results rest active_teams eliminations
        | some eliminated_team =>
          let active' := active_teams.erase eliminated_team.1
          survivorLoop season_results rest active'
            (eliminations ++
              [{ week := week
                 eliminated_team := eliminated_team.1
                 eliminated_score := eliminated_team.2
                 remaining_teams := active'.length }])

/-- The initial active-team set: every team name in the earliest stored
week's matchups. -/
def survivorInitialTeams (sb : WeeklyScoreboard) : List String :=
  sb.matchups.foldl
    (fun active m => setAdd (setAdd active m.team1.team_name) m.team2.team_name)
    []

/-- `WeeklyAnalyzer.calculate_survivor_results(season_results,
elimination_weeks)`: `none` elimination weeks default to all stored weeks
in ascending order.  The winner is the sole remaining team, else `None`. -/
def calculate_survivor_results (season_results : SeasonResults)
    (elimination_weeks : Option (List ℕ)) : SurvivorResult :=
  let weeks := elimination_weeks.getD season_results.sortedWeeks
  match season_results.sortedWeeks with
  | [] => { winner := none, eliminations := [], final_active_teams := [] }
  | first_week :: _ =>
    let first_scoreboard := (season_results.lookupWeek first_week).getD
      { week := first_week, league_key := season_results.league_key }
    let active_teams := survivorInitialTeams first_scoreboard
    let lr := survivorLoop season_results weeks active_teams []
    { winner := if lr.1.length = 1 then lr.1.head? else none
      eliminations := lr.2
      final_active_teams := lr.1 }

/-- Per-team accumulator of `calculate_power_rankings`. -/
structure TeamStats where
  scores : List ℚ := []
  opponent_scores : List ℚ := []
  wins : ℕ := 0
  total_margin : ℚ := 0

/-- One power-rankings output entry. -/
structure PowerRanking where
  team_name : String
  power_rating : ℚ
  avg_score : ℚ
  avg_opponent_score : ℚ
  win_percentage : ℚ
  avg_margin : ℚ
  games_analyzed : ℕ

/-- Round-half-to-even to an integer (the rounding of Python `round`). -/
def roundHalfEven (q : ℚ) : ℤ :=
  let f := ⌊q⌋
  let r := q - f
  if r < 1 / 2 then f
  else if 1 / 2 < r then f + 1
  else if f % 2 = 0 then f else f + 1

/-- Python `round(q, n)`. -/
def pyRound (q : ℚ) (n : ℕ) : ℚ :=
  (roundHalfEven (q * 10 ^ n) : ℚ) / 10 ^ n

/-- Update one side of one matchup into the stats dict: create an empty
entry on first sight, then (the opponent lookup always succeeds for a team
of the matchup) append score and opponent score, count a win on a strictly
higher score, and accumulate the signed margin. -/
def powerStatsUpdate (team_stats : List (String × TeamStats)) (m : Matchup)
    (team : TeamScore) : List (String × TeamStats) :=
  let st := (dictLookup team.team_name team_stats).getD {}
  match m.get_team_opponent team.team_key with
  | some opponent =>
    dictWrite team_stats team.team_name
      { scores := st.scores ++ [team.points]
        opponent_scores := st.opponent_scores ++ [opponent.points]
        wins := st.wins + (if team.points > opponent.points then 1 else 0)
        total_margin := st.total_margin + (team.points - opponent.points) }
  | none => dictWrite team_stats team.team_name st

/-- The stats-collection fold of `calculate_power_rankings` over the
analyzed weeks (weeks with no stored scoreboard are skipped; each matchup
contributes a row for each of its two sides). -/
def powerTeamStats (season_results : SeasonResults) (weeks_to_analyze : List ℕ) :
    List (String × TeamStats) :=
  weeks_to_analyze.foldl
    (fun team_stats week =>
      match season_results.lookupWeek week with
      | none => team_stats
      | some sb =>
        sb.matchups.foldl
          (fun team_stats m =>
            powerStatsUpdate (powerStatsUpdate team_stats m m.team1) m m.team2)
          team_stats)
    []

/-- One power-rankings entry from accumulated stats (the averages, the
composite rating `0.4*avg_score + 0.3*(avg_score - avg_opponent_score) +
0.2*(win_percentage*100) + 0.1*avg_margin`, and the fixed rounding). -/
def mkPowerRanking (team_name : String) (stats : TeamStats) : PowerRanking :=
  let games : ℚ := stats.scores.length
  let avg_score := stats.scores.sum / games
  let avg_opponent_score := stats.opponent_scores.sum / (stats.opponent_scores.length : ℚ)
  let win_percentage : ℚ := if stats.scores.isEmpty then 0 else (stats.wins : ℚ) / games
  let avg_margin := if stats.scores.isEmpty then 0 else stats.total_margin / games
  let power_rating := avg_score * (4 / 10) + (avg_score - avg_opponent_score) * (3 / 10)
    + win_percentage * 100 * (2 / 10) + avg_margin * (1 / 10)
  { team_name := team_name
    power_rating := pyRound power_rating 2
    avg_score := pyRound avg_score 2
    avg_opponent_score := pyRound avg_opponent_score 2
    win_percentage := pyRound win_percentage 3
    avg_margin := pyRound avg_margin 2
    games_analyzed := stats.scores.length }

/-- `WeeklyAnalyzer.calculate_power_rankings(season_results,
weeks_to_analyze)`: `none` defaults to the last four stored weeks (or all
when fewer).  Teams with no accumulated games are skipped; output is
sorted by rating, descending (Python's stable sort). -/
def calculate_power_rankings (season_results : SeasonResults)
    (weeks_to_analyze : Option (List ℕ)) : List PowerRanking :=
  let weeks := weeks_to_analyze.getD
    (let all_weeks := season_results.sortedWeeks
     if all_weeks.length ≥ 4 then all_weeks.drop (all_weeks.length - 4) else all_weeks)
  let team_stats := powerTeamStats season_results weeks
  let power_rankings := team_stats.filterMap fun (name, stats) =>
    if stats.scores.isEmpty then none else some (mkPowerRanking name stats)
  power_rankings.insertionSort fun a b => b.power_rating ≤ a.power_rating

/-- One `team_records` entry of `export_season_summary`. -/
structure TeamRecordEntry where
  wins : ℕ
  losses : ℕ
  ties : ℕ
  total_points : ℚ
  avg_points : ℚ

/-- The set of team names appearing in any stored matchup (the `all_teams`
set of `export_season_summary`), in first-seen order. -/
def allTeamNames (season_results : SeasonResults) : List String :=
  season_results.weekly_scoreboards.foldl
    (fun all wk =>
      wk.2.matchups.foldl
        (fun all m => setAdd (setAdd all m.team1.team_name) m.team2.team_name)
        all)
    []

/-- The per-team body of the `team_records` loop of
`export_season_summary`: the record and total points are looked up with
the team's display name as the key. -/
def exportTeamRecordEntry (season_results : SeasonResults) (team_name : String) :
    TeamRecordEntry :=
  let record := season_results.get_team_record team_name
  let total_points := season_results.get_team_total_points team_name
  let games := record.wins + record.losses + record.ties
  { wins := record.wins
    losses := record.losses
    ties := record.ties
    total_points := pyRound total_points 2
    avg_points := if games > 0 then pyRound (total_points / games) 2 else 0 }

/-- The `team_records` dict of `export_season_summary`: one entry per team
name seen in the season, built by `exportTeamRecordEntry`. -/
def exportTeamRecords (season_results : SeasonResults) :
    List (String × TeamRecordEntry) :=
  (allTeamNames season_results).map fun name =>
    (name, exportTeamRecordEntry season_results name)

/-! ## Specification-side restatements (for refinement claims) -/

/-- The tie flag `bool(matchup_info.get("is_tied", 0))` as read by
`Matchup.from_api_data` from the raw payload (recomputed here to state how
`is_tied` relates to the wire data). -/
def matchupTieFlag (data : JsonValue) : Bool :=
  match matchupInfoFields data with
  | none => false
  | some mf => (JsonValue.getD mf "is_tied" (.num 0)).pyTruthy

/-- The claim's restatement of the starter pairing: for each slot of the
canonical order, the i-th occupant of team1 paired with the i-th occupant
of team2 for `i < max(count1, count2)`, the missing side `none`.  To be
proved equal to the implementation's `DetailedMatchup.starterMatchups`. -/
def starterPairingByIndex (team1_roster team2_roster : TeamRoster) :
    List PositionMatchup :=
  let g1 := groupBySelectedPosition team1_roster.starters
  let g2 := groupBySelectedPosition team2_roster.starters
  let all_positions := dedupFirst (g1.map Prod.fst ++ g2.map Prod.fst)
  let orderedSlots := position_order.filter (· ∈ all_positions)
    ++ all_positions.filter (· ∉ position_order)
  orderedSlots.flatMap fun pos =>
    (List.range (slotCount g1 g2 pos)).map (slotPairAt g1 g2 pos)

/-! ## Concrete fixtures used by witnesses and counterexamples -/

/-- A team score fixture builder (directly-constructed model values, as the
analytics consume them). -/
def mkTeamScore (key name : String) (week : ℕ) (points : ℚ) : TeamScore :=
  { team_key := key, team_id := key, team_name := name, week := week,
    points := points }

/-- A completed, untied matchup fixture between two team scores, with the
margin given as a literal (equal to the teams' absolute point
difference in every fixture below). -/
def mkPostMatchup (week : ℕ) (t1 t2 : TeamScore) (winner : Option String)
    (margin : ℚ) : Matchup :=
  { week := week, team1 := t1, team2 := t2,
    winner_team_key := winner,
    margin_of_victory := margin,
    is_tied := false,
    status := "postevent" }

/-- Skins example season (claim C1): weeks 1–3 with sole margins 25, 5, 30
against threshold 20. -/
def skinsExampleSeason : SeasonResults :=
  { league_key := "L", season := "2024",
    weekly_scoreboards :=
      [ (1, { week := 1, league_key := "L",
              matchups := [mkPostMatchup 1 (mkTeamScore "a" "A" 1 125)
                (mkTeamScore "b" "B" 1 100) (some "a") 25] }),
        (2, { week := 2, league_key := "L",
              matchups := [mkPostMatchup 2 (mkTeamScore "a" "A" 2 105)
                (mkTeamScore "b" "B" 2 100) (some "a") 5] }),
        (3, { week := 3, league_key := "L",
              matchups := [mkPostMatchup 3 (mkTeamScore "c" "C" 3 130)
                (mkTeamScore "d" "D" 3 100) (some "c") 30] }) ] }

/-- The two-week prefix of the skins example: week 2 rolls the pot over and
the rolled pot is never paid out. -/
def skinsExamplePrefix : SeasonResults :=
  { skinsExampleSeason with
    weekly_scoreboards := skinsExampleSeason.weekly_scoreboards.take 2 }

/-- Survivor witness season (claim C2): two teams, one week; B scores lower
and is eliminated. -/
def survivorExampleSeason : SeasonResults :=
  { league_key := "L", season := "2024",
    weekly_scoreboards :=
      [ (1, { week := 1, league_key := "L",
              matchups := [mkPostMatchup 1 (mkTeamScore "a" "A" 1 100)
                (mkTeamScore "b" "B" 1 90) (some "a") 10] }) ] }

/-- Matchup payload (claim C3) with the API tie flag set but distinct point
totals: 10 vs 0. -/
def tieFlagPayload : JsonValue :=
  .obj
    [ ("is_tied", .num 1),
      ("status", .str "postevent"),
      ("0", .obj
        [ ("teams", .obj
            [ ("0", .obj [("team", .arr
                [ .arr [.obj [("team_key", .str "a")]],
                  .obj [("team_points", .obj [("total", .num 10)])] ])]),
              ("1", .obj [("team", .arr
                [ .arr [.obj [("team_key", .str "b")]],
                  .obj [("team_points", .obj [("total", .num 0)])] ])]) ]) ]) ]

/-- Matchup payload (claim C3 witness) without the tie flag: 10 vs 0. -/
def untiedPayload : JsonValue :=
  .obj
    [ ("status", .str "postevent"),
      ("0", .obj
        [ ("teams", .obj
            [ ("0", .obj [("team", .arr
                [ .arr [.obj [("team_key", .str "a")]],
                  .obj [("team_points", .obj [("total", .num 10)])] ])]),
              ("1", .obj [("team", .arr
                [ .arr [.obj [("team_key", .str "b")]],
                  .obj [("team_points", .obj [("total", .num 0)])] ])]) ]) ]) ]

/-- The parse of `untiedPayload` (claim C3 witness). -/
def untiedParsed : Matchup :=
  (Matchup.from_api_data untiedPayload 1).getD
    { week := 0, team1 := mkTeamScore "" "" 0 0, team2 := mkTeamScore "" "" 0 0 }

/-- The parse of `tieFlagPayload` (claim C3 counterexample). -/
def tieFlagParsed : Matchup :=
  (Matchup.from_api_data tieFlagPayload 1).getD
    { week := 0, team1 := mkTeamScore "" "" 0 0, team2 := mkTeamScore "" "" 0 0 }

/-- Roster payload (claim C4 witness): one QB starter with 7 points, one
bench player with 3 points. -/
def rosterPayload : JsonValue :=
  .obj
    [ ("roster", .obj
        [ ("0", .obj
            [ ("players", .obj
                [ ("0", .obj [("player", .arr
                    [ .arr [.obj [("player_key", .str "p1")]],
                      .obj [("selected_position", .arr
                        [.obj [("position", .str "QB")]])],
                      .obj [("player_points", .obj [("total", .num 7)])] ])]),
                  ("1", .obj [("player", .arr
                    [ .arr [.obj [("player_key", .str "p2")]],
                      .obj [("selected_position", .arr
                        [.obj [("position", .str "BN")]])],
                      .obj [("player_points", .obj [("total", .num 3)])] ])]),
                  ("count", .num 2) ]) ]) ]) ]

/-- The parse of `rosterPayload` (claim C4 witness). -/
def rosterParsed : TeamRoster :=
  (TeamRoster.from_api_data rosterPayload "k" "n" 1).getD
    { team_key := "", team_name := "", week := 0,
      total_points := 0, starter_points := 0, bench_points := 0 }

/-- The numeric-keyed-with-count wire shape (claim C5), wrapping one inner
item under `"team"`. -/
def numericKeyedShape : JsonValue :=
  .obj [("0", .obj [("team", .obj [("team_key", .str "t1")])]), ("count", .num 1)]

/-- Power-rankings example season (claim C6): A beats B 120–100 and
110–90 in weeks 1 and 2. -/
def powerExampleSeason : SeasonResults :=
  { league_key := "L", season := "2024",
    weekly_scoreboards :=
      [ (1, { week := 1, league_key := "L",
              matchups := [mkPostMatchup 1 (mkTeamScore "a" "A" 1 120)
                (mkTeamScore "b" "B" 1 100) (some "a") 20] }),
        (2, { week := 2, league_key := "L",
              matchups := [mkPostMatchup 2 (mkTeamScore "a" "A" 2 110)
                (mkTeamScore "b" "B" 2 90) (some "a") 20] }) ] }

/-- A starter fixture (claim C7). -/
def mkStarter (key : String) (pos : String) (points : ℚ) : PlayerStats :=
  { player_key := key, player_id := key, name := key, position := pos,
    points := points, selected_position := pos, is_starter := true }

/-- Roster fixture (claim C7): two RB starters scoring 10 and 5. -/
def rbRoster1 : TeamRoster :=
  { team_key := "t1", team_name := "T1", week := 1,
    players := [mkStarter "r10" "RB" 10, mkStarter "r5" "RB" 5],
    starters := [mkStarter "r10" "RB" 10, mkStarter "r5" "RB" 5],
    bench := [], total_points := 15, starter_points := 15, bench_points := 0 }

/-- Roster fixture (claim C7): one RB starter scoring 8. -/
def rbRoster2 : TeamRoster :=
  { team_key := "t2", team_name := "T2", week := 1,
    players := [mkStarter "r8" "RB" 8],
    starters := [mkStarter "r8" "RB" 8],
    bench := [], total_points := 8, starter_points := 8, bench_points := 0 }

/-- Player payload (claim C9) whose selected position is `IR`. -/
def irPlayerPayload : JsonValue :=
  .arr
    [ .arr [.obj [("player_key", .str "p1")]],
      .obj [("selected_position", .arr [.obj [("position", .str "IR")]])],
      .obj [] ]

/-- The parse of `irPlayerPayload` (claim C9 witness). -/
def irPlayerParsed : PlayerStats :=
  (PlayerStats.from_api_data irPlayerPayload).getD
    { player_key := "", player_id := "", name := "", position := "",
      points := 0, selected_position := "" }

/-- Season fixture (claim C10): team1 is keyed `"K"` but displayed `"N"`,
while its opponent is keyed `"N"`; looking records up by display name
`"N"` therefore hits the opponent's matchup side. -/
def keyCollisionSeason : SeasonResults :=
  { league_key := "L", season := "2024",
    weekly_scoreboards :=
      [ (1, { week := 1, league_key := "L",
              matchups := [mkPostMatchup 1 (mkTeamScore "K" "N" 1 100)
                (mkTeamScore "N" "M" 1 90) (some "N") 10] }) ] }

/-- Season fixture (claim C10 witness): team names share no string with any
team key. -/
def nameMismatchSeason : SeasonResults :=
  { league_key := "L", season := "2024",
    weekly_scoreboards :=
      [ (1, { week := 1, league_key := "L",
              matchups := [mkPostMatchup 1 (mkTeamScore "a" "X" 1 100)
                (mkTeamScore "b" "Y" 1 90) (some "a") 10] }) ] }

/-! ## Claim C8 — scalar coercion helpers -/

/-- Claim C8 (corrected): the coercion helpers are total with explicit
defaults, and `None` and empty/whitespace-only strings coerce to the
default; but the boolean `false` sentinel converts numerically (to `0` /
`0.0` / `"False"`), it does not return the default. -/
theorem safe_coercions_default_behaviour (d : ℤ) (df : ℚ) (ds : String) (s : String)
    (hs : (pyStripChars s.toList).isEmpty = true) :
    safe_int .null d = d ∧ safe_float .null df = df ∧ safe_str .null ds = ds
      ∧ safe_int (.str s) d = d ∧ safe_float (.str s) df = df
      ∧ safe_int (.bool false) d = 0 ∧ safe_float (.bool false) df = 0
      ∧ safe_int (.bool true) d = 1 ∧ safe_float (.bool true) df = 1
      ∧ safe_str (.bool false) ds = "False"
      ∧ (∀ items, safe_int (.arr items) d = d ∧ safe_float (.arr items) df = df)
      ∧ (∀ fields, safe_int (.obj fields) d = d ∧ safe_float (.obj fields) df = df) := by
  refine ⟨rfl, rfl, rfl, ?_, ?_, rfl, rfl, rfl, rfl, rfl,
    fun _ => ⟨rfl, rfl⟩, fun _ => ⟨rfl, rfl⟩⟩
  · show (if (pyStripChars s.toList).isEmpty then d else (pyParseInt s).getD d) = d
    rw [if_pos hs]
  · show (if (pyStripChars s.toList).isEmpty then df else (pyParseFloat s).getD df) = df
    rw [if_pos hs]

/-- Claim C8 witness: the corrected behaviour at concrete inputs. -/
theorem safe_coercions_default_behaviour_witness :
    safe_int .null 7 = 7 ∧ safe_int (.str " ") 7 = 7 ∧ safe_float (.str " ") 5 = 5 := by
  have h := safe_coercions_default_behaviour 7 5 "x" " " (by decide)
  exact ⟨h.1, h.2.2.2.1, h.2.2.2.2.1⟩

/-- Claim C8 counterexample: coercing the boolean `false` sentinel with a
nonzero default returns `0`, not the default, for both `safe_int` and
`safe_float`. -/
theorem safe_coercions_false_sentinel_counterexample :
    safe_int (.bool false) 7 = 0 ∧ (0 : ℤ) ≠ 7
      ∧ safe_float (.bool false) 7 = 0 ∧ (0 : ℚ) ≠ 7 :=
  ⟨rfl, by decide, rfl, by norm_num⟩

/-! ## Claim C5 — `extract_list_items` wire shapes -/

/-- Unwrapping a list of freshly wrapped items recovers the items. -/
theorem map_unwrap_wrap (key : String) (l : List JsonValue) :
    l.map ((fun item =>
        match item with
        | JsonValue.obj fields =>
          match dictLookup key fields with
          | some v => v
          | none => item
        | _ => item) ∘ fun it => JsonValue.obj [(key, it)]) = l := by
  induction l with
  | nil => rfl
  | cons a t ih =>
    simp only [List.map_cons, Function.comp_apply, ih]
    simp [dictLookup]

/-- Claim C5 (corrected): `extract_list_items` returns an empty sequence
(never null) for absent/empty input and round-trips the single-mapping and
list-of-wrapped-items shapes to the same ordered inner payloads; the
numeric-keyed dict-with-count shape is not specially handled (see the
counterexample). -/
theorem extract_list_items_shapes (key : String) (item : JsonValue)
    (items : List JsonValue) :
    extract_list_items .null key = []
      ∧ extract_list_items (.obj []) key = []
      ∧ extract_list_items (.arr []) key = []
      ∧ extract_list_items (.str "") key = []
      ∧ extract_list_items (.obj [(key, item)]) key = [item]
      ∧ extract_list_items (.arr (items.map fun it => .obj [(key, it)])) key = items := by
  refine ⟨rfl, rfl, rfl, rfl, ?_, ?_⟩
  · simp [extract_list_items, JsonValue.pyTruthy, JsonValue.lookupKey, dictLookup]
  · cases items with
    | nil => rfl
    | cons a l =>
      simpa [extract_list_items, JsonValue.pyTruthy, JsonValue.lookupKey] using
        map_unwrap_wrap key (a :: l)

/-- Claim C5 counterexample: on the numeric-keyed dict-with-count shape,
`extract_list_items` returns the whole dict (count key included) as a
single item rather than the ordered inner payloads — the three shapes do
not agree. -/
theorem extract_list_items_numeric_shape_counterexample :
    extract_list_items (.obj [("team", .obj [("team_key", .str "t1")])]) "team"
        = [.obj [("team_key", .str "t1")]]
      ∧ extract_list_items numericKeyedShape "team" = [numericKeyedShape]
      ∧ numericKeyedShape ≠ .obj [("team_key", .str "t1")] := by
  refine ⟨rfl, rfl, ?_⟩
  simp [numericKeyedShape]

/-! ## Claim C3 — matchup margin and tie invariants -/

/-- Claim C3 (corrected): for every successfully parsed matchup,
`margin_of_victory` is the absolute point difference (hence nonnegative),
a zero margin forces `is_tied`, and `is_tied` is exactly "API tie flag
truthy OR points exactly equal" — so `is_tied` does not imply a zero
margin (see the counterexample). -/
theorem matchup_margin_tie_invariants (data : JsonValue) (week : ℕ) (m : Matchup)
    (h : Matchup.from_api_data data week = some m) :
    m.margin_of_victory = |m.team1.points - m.team2.points|
      ∧ 0 ≤ m.margin_of_victory
      ∧ (m.margin_of_victory = 0 → m.is_tied = true)
      ∧ m.is_tied
          = (matchupTieFlag data || decide (m.team1.points = m.team2.points)) := by
  simp only [Matchup.from_api_data, Option.bind_eq_bind, Option.bind_eq_some] at h
  obtain ⟨mf, hmf, h⟩ := h
  have hflag : matchupTieFlag data = (JsonValue.getD mf "is_tied" (.num 0)).pyTruthy := by
    simp [matchupTieFlag, hmf]
  obtain ⟨⟨t1, t2⟩, hteams, h⟩ := h
  simp only [Option.bind_eq_bind, Option.bind_eq_some, Option.pure_def,
    Option.some.injEq] at h
  obtain ⟨wk, hwk, status, hstatus, hm⟩ := h
  subst hm
  refine ⟨rfl, abs_nonneg _, ?_, ?_⟩
  · intro h0
    have hpts : t1.points = t2.points := sub_eq_zero.mp (abs_eq_zero.mp h0)
    simp [hpts]
  · rw [hflag]

/-- Claim C3 witness: the invariants at a concrete parsed matchup
(10 vs 0, no tie flag). -/
theorem matchup_margin_tie_invariants_witness :
    untiedParsed.margin_of_victory
        = |untiedParsed.team1.points - untiedParsed.team2.points|
      ∧ 0 ≤ untiedParsed.margin_of_victory
      ∧ untiedParsed.is_tied
          = (matchupTieFlag untiedPayload
              || decide (untiedParsed.team1.points = untiedParsed.team2.points)) := by
  have h := matchup_margin_tie_invariants untiedPayload 1 untiedParsed rfl
  exact ⟨h.1, h.2.1, h.2.2.2⟩

/-- Claim C3 counterexample: a payload whose API tie flag is set but whose
points are 10 vs 0 parses with `is_tied = true` and margin 10 ≠ 0, so
`is_tied ⇔ margin_of_victory = 0` fails on the code. -/
theorem matchup_tieflag_margin_counterexample :
    Matchup.from_api_data tieFlagPayload 1 = some tieFlagParsed
      ∧ tieFlagParsed.is_tied = true
      ∧ tieFlagParsed.margin_of_victory = 10
      ∧ (10 : ℚ) ≠ 0 := by
  refine ⟨rfl, rfl, ?_, by norm_num⟩
  show |(10 : ℚ) - 0| = 10
  norm_num

/-! ## Claim C4 — roster partition and point totals -/

/-- One roster-fold step preserves "starters and bench are the is_starter
partition of players". -/
theorem rosterFoldStep_partition (acc : List PlayerStats × List PlayerStats × List PlayerStats)
    (it : JsonValue)
    (h1 : acc.2.1 = acc.1.filter fun p => p.is_starter)
    (h2 : acc.2.2 = acc.1.filter fun p => !p.is_starter) :
    (rosterFoldStep acc it).2.1 = (rosterFoldStep acc it).1.filter (fun p => p.is_starter)
      ∧ (rosterFoldStep acc it).2.2
        = (rosterFoldStep acc it).1.filter (fun p => !p.is_starter) := by
  obtain ⟨pl, st, bn⟩ := acc
  simp only at h1 h2
  by_cases hT : it.pyTruthy = false
  · unfold rosterFoldStep; rw [if_pos hT]; exact ⟨h1, h2⟩
  · unfold rosterFoldStep; rw [if_neg hT]
    cases it <;> try exact ⟨h1, h2⟩
    rename_i fields
    dsimp only
    cases JsonValue.lookupKey fields "player" with
    | none => exact ⟨h1, h2⟩
    | some pv =>
      dsimp only
      cases PlayerStats.from_api_data pv with
      | none => exact ⟨h1, h2⟩
      | some ps =>
        dsimp only
        by_cases hps : ps.is_starter = true
        · simp only [if_pos hps]
          exact ⟨by simp [List.filter_append, h1, hps],
            by simp [List.filter_append, h2, hps]⟩
        · simp only [if_neg hps]
          rw [Bool.not_eq_true] at hps
          exact ⟨by simp [List.filter_append, h1, hps],
            by simp [List.filter_append, h2, hps]⟩

/-- The roster fold keeps starters/bench the is_starter partition of the
player list. -/
theorem rosterFold_partition (items : List JsonValue)
    (acc : List PlayerStats × List PlayerStats × List PlayerStats)
    (h1 : acc.2.1 = acc.1.filter fun p => p.is_starter)
    (h2 : acc.2.2 = acc.1.filter fun p => !p.is_starter) :
    (items.foldl rosterFoldStep acc).2.1
        = (items.foldl rosterFoldStep acc).1.filter (fun p => p.is_starter)
      ∧ (items.foldl rosterFoldStep acc).2.2
        = (items.foldl rosterFoldStep acc).1.filter (fun p => !p.is_starter) := by
  induction items generalizing acc with
  | nil => exact ⟨h1, h2⟩
  | cons it rest ih =>
    have hstep := rosterFoldStep_partition acc it h1 h2
    exact ih (rosterFoldStep acc it) hstep.1 hstep.2

/-- Splitting a sum of points along the is_starter partition. -/
theorem sum_points_filter_partition (l : List PlayerStats) :
    (((l.filter fun p => p.is_starter).map PlayerStats.points).sum
        + ((l.filter fun p => !p.is_starter).map PlayerStats.points).sum)
      = (l.map PlayerStats.points).sum := by
  induction l with
  | nil => simp
  | cons p t ih =>
    by_cases hp : p.is_starter = true <;> simp [List.filter_cons, hp] <;> linarith

/-- Claim C4 (confirmed): for every successfully parsed roster, starters
and bench partition the player list (by `is_starter`), `total_points` is
the sum of all players' points, and starter plus bench points equals the
total (exactly, in the rational model of float arithmetic). -/
theorem roster_partition_totals (data : JsonValue) (team_key team_name : String)
    (week : ℕ) (r : TeamRoster)
    (h : TeamRoster.from_api_data data team_key team_name week = some r) :
    r.starters = r.players.filter (fun p => p.is_starter)
      ∧ r.bench = r.players.filter (fun p => !p.is_starter)
      ∧ r.total_points = (r.players.map PlayerStats.points).sum
      ∧ r.starter_points + r.bench_points = r.total_points := by
  simp only [TeamRoster.from_api_data, Option.bind_eq_bind, Option.bind_eq_some,
    Option.pure_def, Option.some.injEq] at h
  obtain ⟨fields, hf, rd, hrd, r0, hr0, hm⟩ := h
  subst hm
  have hpart := rosterFold_partition
    (playerItemsOf (JsonValue.getD r0 "players" (.obj []))) ([], [], []) rfl rfl
  refine ⟨hpart.1, hpart.2, rfl, ?_⟩
  unfold TeamRoster.build
  simp only
  rw [hpart.1, hpart.2]
  exact sum_points_filter_partition _

/-- Claim C4 witness: the invariants at a concrete parsed roster (one QB
starter with 7 points, one bench player with 3). -/
theorem roster_partition_totals_witness :
    rosterParsed.starters = rosterParsed.players.filter (fun p => p.is_starter)
      ∧ rosterParsed.starter_points + rosterParsed.bench_points
        = rosterParsed.total_points := by
  have h := roster_partition_totals rosterPayload "k" "n" 1 rosterParsed rfl
  exact ⟨h.1, h.2.2.2⟩

/-! ## Claim C9 — `is_starter` semantics -/

/-- `PlayerStats.build` inversion: the constructed player's `is_starter`
is exactly `not selected_position.startswith("BN")`. -/
theorem PlayerStats.build_is_starter (st : PlayerMetaScan) (selVal : JsonValue)
    (points : ℚ) (projected : Option ℚ) (p : PlayerStats)
    (h : PlayerStats.build st selVal points projected = some p) :
    p.is_starter = !pyStartsWith p.selected_position "BN" := by
  revert h
  unfold PlayerStats.build
  cases st.player_key.asString <;> cases st.name.asString <;>
    cases st.position.asString <;> cases st.team.asString <;>
    cases selVal.asString <;> intro h <;>
    first
      | exact Option.noConfusion h
      | (injection h with h; subst h; rfl)

/-- Claim C9 (corrected): every parsed player has
`is_starter = not selected_position.startswith("BN")` — so `IR` (and any
other non-`BN`-prefixed slot) counts as a starter, while any slot whose
code starts with `BN` counts as bench. -/
theorem is_starter_iff_not_bn_slot (data : JsonValue) (p : PlayerStats)
    (h : PlayerStats.from_api_data data = some p) :
    p.is_starter = !pyStartsWith p.selected_position "BN" := by
  unfold PlayerStats.from_api_data at h
  exact PlayerStats.build_is_starter _ _ _ _ _ h

/-- Claim C9 witness: the corrected rule applied to the parsed `IR`
player. -/
theorem is_starter_iff_not_bn_slot_witness :
    irPlayerParsed.is_starter = !pyStartsWith irPlayerParsed.selected_position "BN" :=
  is_starter_iff_not_bn_slot irPlayerPayload irPlayerParsed rfl

/-- Claim C9 counterexample: a player whose selected position is `IR`
parses with `is_starter = true`, contradicting the claimed bench/IR
exclusion. -/
theorem ir_player_is_starter_counterexample :
    (PlayerStats.from_api_data irPlayerPayload).map
        (fun p => (p.selected_position, p.is_starter)) = some ("IR", true) := rfl

/-! ## Claim C10 — `export_season_summary` team records keyed by name -/

/-- A left fold whose step fixes every list element is the identity. -/
theorem foldl_fixed {α β : Type} {f : β → α → β} {l : List α}
    (h : ∀ x ∈ l, ∀ acc, f acc x = acc) (init : β) : l.foldl f init = init := by
  induction l generalizing init with
  | nil => rfl
  | cons a t ih =>
    rw [List.foldl_cons, h a (List.mem_cons_self a t)]
    exact ih (fun x hx acc => h x (List.mem_cons_of_mem a hx) acc) init

/-- `round(0, n) = 0`. -/
theorem pyRound_zero (n : ℕ) : pyRound 0 n = 0 := by
  norm_num [pyRound, roundHalfEven]

/-- A scoreboard none of whose matchups contains the key yields no
matchup for it. -/
theorem get_matchup_by_team_eq_none (sb : WeeklyScoreboard) (name : String)
    (h : ∀ m ∈ sb.matchups, m.team1.team_key ≠ name ∧ m.team2.team_key ≠ name) :
    sb.get_matchup_by_team name = none := by
  apply List.find?_eq_none.mpr
  intro m hm
  simp [h m hm]

/-- Claim C10 (corrected): if a team's display name matches no
`team_key` in any stored matchup, the `team_records` entry exported under
that name is all zeros regardless of the stored results.  (The claim's
unconditional version fails when the display name collides with some other
team's key — see the counterexample.) -/
theorem export_record_zero_when_name_unmatched (r : SeasonResults) (name : String)
    (hmem : name ∈ allTeamNames r)
    (hkeys : ∀ wk ∈ r.weekly_scoreboards, ∀ m ∈ wk.2.matchups,
      m.team1.team_key ≠ name ∧ m.team2.team_key ≠ name) :
    exportTeamRecordEntry r name
      = { wins := 0, losses := 0, ties := 0, total_points := 0, avg_points := 0 } := by
  have hnone : ∀ wk ∈ r.weekly_scoreboards, wk.2.get_matchup_by_team name = none :=
    fun wk hwk => get_matchup_by_team_eq_none wk.2 name (hkeys wk hwk)
  have hrec : r.get_team_record name = {} := by
    unfold SeasonResults.get_team_record
    apply foldl_fixed
    intro wk hwk acc
    rw [hnone wk hwk]
  have hpts : r.get_team_total_points name = 0 := by
    unfold SeasonResults.get_team_total_points
    apply foldl_fixed
    intro wk hwk acc
    unfold WeeklyScoreboard.get_team_score
    rw [hnone wk hwk]
  unfold exportTeamRecordEntry
  rw [hrec, hpts]
  simp [SeasonResults.Record, pyRound_zero]

/-- Claim C10 witness: the corrected statement at a concrete season whose
display names match no key. -/
theorem export_record_zero_when_name_unmatched_witness :
    exportTeamRecordEntry nameMismatchSeason "X"
      = { wins := 0, losses := 0, ties := 0, total_points := 0, avg_points := 0 } :=
  export_record_zero_when_name_unmatched nameMismatchSeason "X" (by decide)
    (by decide)

/-- Claim C10 counterexample: the team displayed `"N"` has key `"K"`
(name ≠ key), yet its exported record is not all zeros — the name `"N"`
collides with the opponent's key, so the lookup counts the opponent's
matchup and even credits a win. -/
theorem export_record_name_key_collision_counterexample :
    (keyCollisionSeason.weekly_scoreboards.map fun wk =>
        wk.2.matchups.map fun m => (m.team1.team_name, m.team1.team_key))
        = [[("N", "K")]]
      ∧ "N" ∈ allTeamNames keyCollisionSeason
      ∧ (exportTeamRecordEntry keyCollisionSeason "N").wins = 1
      ∧ (1 : ℕ) ≠ 0 := by
  refine ⟨rfl, by decide, rfl, by decide⟩

/-! ## Claim C1 — skins game with rolling pot -/

/-- `max(..., key=margin)` returns a member of the list that bounds every
member's margin (Python's `max` keeps the first maximum). -/
theorem maxByMargin_spec (c : SkinsCandidate) (rest : List SkinsCandidate) :
    maxByMargin c rest ∈ c :: rest
      ∧ ∀ x ∈ c :: rest, x.margin ≤ (maxByMargin c rest).margin := by
  induction rest generalizing c with
  | nil => simp [maxByMargin]
  | cons y t ih =>
    simp only [maxByMargin, List.foldl_cons] at *
    set c' := if y.margin > c.margin then y else c with hc'
    have hcc : c.margin ≤ c'.margin ∧ y.margin ≤ c'.margin := by
      by_cases hy : y.margin > c.margin <;> simp [hc', hy] <;> linarith
    have hc'mem : c' = c ∨ c' = y := by
      by_cases hy : y.margin > c.margin <;> simp [hc', hy]
    obtain ⟨hmem, hbound⟩ := ih c'
    constructor
    · rcases List.mem_cons.mp hmem with h | h
      · rcases hc'mem with h' | h'
        · exact List.mem_cons.mpr (Or.inl (h.trans h'))
        · exact List.mem_cons.mpr (Or.inr (List.mem_cons.mpr (Or.inl (h.trans h'))))
      · exact List.mem_cons.mpr (Or.inr (List.mem_cons.mpr (Or.inr h)))
    · intro x hx
      rcases List.mem_cons.mp hx with rfl | hx'
      · exact le_trans hcc.1 (hbound c' (List.mem_cons_self c' t))
      · rcases List.mem_cons.mp hx' with rfl | hx''
        · exact le_trans hcc.2 (hbound c' (List.mem_cons_self c' t))
        · exact hbound x (List.mem_cons_of_mem c' hx'')

/-- Claim C1 (confirmed): the skins state machine — a week with no
qualifying matchup rolls the pot over by `weekly_pot` and records no
winner; otherwise the qualifying candidate of maximal margin wins, a
record `{week, margin, pot_amount = carried pot, opponent}` is appended
under the winner's name and the pot resets; qualification means an
untied, `postevent` matchup with margin at or above the threshold; and
the worked example (pot 10, threshold 20, sole margins 25/5/30 in weeks
1–3) pays pot 10 in week 1, rolls week 2, pays pot 20 in week 3, and any
pot still rolling after the last week is discarded. -/
theorem calculate_skins_winners_ok :
    (∀ (mm wp pot : ℚ) (winners : List (String × List SkinsRecord)) (week : ℕ)
        (sb : WeeklyScoreboard),
        skinsPotentialWinners mm sb = [] →
        skinsStep mm wp (winners, pot) week sb = (winners, pot + wp))
      ∧ (∀ (mm wp pot : ℚ) (winners : List (String × List SkinsRecord)) (week : ℕ)
          (sb : WeeklyScoreboard) (c : SkinsCandidate) (rest : List SkinsCandidate),
          skinsPotentialWinners mm sb = c :: rest →
          (∀ x ∈ skinsPotentialWinners mm sb, x.margin ≤ (maxByMargin c rest).margin)
            ∧ skinsStep mm wp (winners, pot) week sb
              = (appendSkinsRecord winners (maxByMargin c rest).team.team_name
                  { week := week, margin := (maxByMargin c rest).margin,
                    pot_amount := pot,
                    opponent := ((maxByMargin c rest).matchup.get_team_opponent
                      (maxByMargin c rest).team.team_key).map TeamScore.team_name },
                  wp))
      ∧ (∀ (mm : ℚ) (sb : WeeklyScoreboard) (cand : SkinsCandidate),
          cand ∈ skinsPotentialWinners mm sb →
          cand.matchup ∈ sb.matchups ∧ cand.matchup.is_tied = false
            ∧ cand.matchup.status = "postevent"
            ∧ mm ≤ cand.matchup.margin_of_victory
            ∧ cand.margin = cand.matchup.margin_of_victory
            ∧ cand.matchup.get_winning_team = some cand.team)
      ∧ calculate_skins_winners 20 skinsExampleSeason 10
        = [("A", [⟨1, 25, 10, some "B"⟩]), ("C", [⟨3, 30, 20, some "D"⟩])]
      ∧ calculate_skins_winners 20 skinsExamplePrefix 10
        = [("A", [⟨1, 25, 10, some "B"⟩])] := by
  refine ⟨?_, ?_, ?_, ?_, ?_⟩
  · intro mm wp pot winners week sb hq
    simp [skinsStep, hq]
  · intro mm wp pot winners week sb c rest hq
    refine ⟨?_, ?_⟩
    · rw [hq]; exact (maxByMargin_spec c rest).2
    · simp [skinsStep, hq]
  · intro mm sb cand hcand
    unfold skinsPotentialWinners at hcand
    rw [List.mem_filterMap] at hcand
    obtain ⟨m, hm, hf⟩ := hcand
    by_cases hcond : ¬m.is_tied = true ∧ m.status = "postevent"
        ∧ m.margin_of_victory ≥ mm
    · rw [if_pos hcond] at hf
      rw [Option.map_eq_some'] at hf
      obtain ⟨w, hw, hwc⟩ := hf
      subst hwc
      exact ⟨hm, Bool.not_eq_true _ ▸ hcond.1, hcond.2.1, hcond.2.2, rfl, hw⟩
    · rw [if_neg hcond] at hf
      exact absurd hf (by simp)
  · show ([("A", [⟨1, 25, 10, some "B"⟩]),
        ("C", [⟨3, 30, (10 : ℚ) + 10, some "D"⟩])] : List (String × List SkinsRecord))
      = [("A", [⟨1, 25, 10, some "B"⟩]), ("C", [⟨3, 30, 20, some "D"⟩])]
    norm_num
  · rfl

/-- Claim C1 witness: week 2 of the example (margin 5, below threshold 20)
rolls the pot over and records no winner. -/
theorem calculate_skins_winners_ok_witness :
    skinsStep 20 10 ([], 10) 2
        { week := 2, league_key := "L",
          matchups := [mkPostMatchup 2 (mkTeamScore "a" "A" 2 105)
            (mkTeamScore "b" "B" 2 100) (some "a") 5] }
      = ([], 10 + 10) :=
  calculate_skins_winners_ok.1 20 10 10 [] 2 _ rfl

/-! ## Claim C2 — survivor pool -/

/-- Membership after a dict write: either the written key or an original
entry. -/
theorem mem_dictWrite {α : Type} (d : List (String × α)) (k : String) (v : α)
    (p : String × α) (hp : p ∈ dictWrite d k v) : p.1 = k ∨ p ∈ d := by
  unfold dictWrite at hp
  split at hp
  · rw [List.mem_map] at hp
    obtain ⟨q, hq, hpq⟩ := hp
    by_cases h : q.1 = k
    · rw [if_pos h] at hpq; subst hpq; exact Or.inl rfl
    · rw [if_neg h] at hpq; subst hpq; exact Or.inr hq
  · rcases List.mem_append.mp hp with h | h
    · exact Or.inr h
    · rw [List.mem_singleton.mp h]; exact Or.inl rfl

/-- Membership after a `set.add`. -/
theorem mem_setAdd (s : List String) (x y : String) :
    y ∈ setAdd s x ↔ y = x ∨ y ∈ s := by
  unfold setAdd
  split
  · rename_i h
    constructor
    · exact Or.inr
    · rintro (rfl | hy)
      · exact h
      · exact hy
  · simp [List.mem_append, or_comm]

/-- Every key in the survivor week-score dict names an active team. -/
theorem survivorWeekScores_keys_active (active : List String) (sb : WeeklyScoreboard) :
    ∀ p ∈ survivorWeekScores active sb, p.1 ∈ active := by
  unfold survivorWeekScores
  suffices h : ∀ (ms : List Matchup) (acc : List (String × ℚ)),
      (∀ p ∈ acc, p.1 ∈ active) →
      ∀ p ∈ ms.foldl
        (fun week_scores m =>
          let week_scores :=
            if m.team1.team_name ∈ active then
              dictWrite week_scores m.team1.team_name m.team1.points
            else week_scores
          if m.team2.team_name ∈ active then
            dictWrite week_scores m.team2.team_name m.team2.points
          else week_scores)
        acc, p.1 ∈ active by
    exact h sb.matchups [] (by simp)
  intro ms
  induction ms with
  | nil => intro acc hacc p hp; exact hacc p hp
  | cons m rest ih =>
    intro acc hacc p hp
    refine ih _ ?_ p hp
    intro q hq
    by_cases h2 : m.team2.team_name ∈ active
    · simp only [if_pos h2] at hq
      rcases mem_dictWrite _ _ _ q hq with h | h
      · rw [h]; exact h2
      · by_cases h1 : m.team1.team_name ∈ active
        · simp only [if_pos h1] at h
          rcases mem_dictWrite _ _ _ q h with h' | h'
          · rw [h']; exact h1
          · exact hacc q h'
        · simp only [if_neg h1] at h
          exact hacc q h
    · simp only [if_neg h2] at hq
      by_cases h1 : m.team1.team_name ∈ active
      · simp only [if_pos h1] at hq
        rcases mem_dictWrite _ _ _ q hq with h | h
        · rw [h]; exact h1
        · exact hacc q h
      · simp only [if_neg h1] at hq
        exact hacc q hq

/-- `min(..., key=score)` returns a member of the list whose score bounds
every member's score from below (Python's `min` keeps the first
minimum). -/
theorem minByScore_spec (l : List (String × ℚ)) (p : String × ℚ)
    (h : minByScore l = some p) : p ∈ l ∧ ∀ q ∈ l, p.2 ≤ q.2 := by
  match l with
  | [] => exact Option.noConfusion h
  | x :: xs =>
    injection h with h
    subst h
    induction xs generalizing x with
    | nil => simp
    | cons y t ih =>
      simp only [List.foldl_cons]
      set x' := if y.2 < x.2 then y else x with hx'
      have hxx : x'.2 ≤ x.2 ∧ x'.2 ≤ y.2 := by
        by_cases hy : y.2 < x.2 <;> simp [hx', hy] <;> linarith
      have hx'mem : x' = x ∨ x' = y := by
        by_cases hy : y.2 < x.2 <;> simp [hx', hy]
      obtain ⟨hmem, hbound⟩ := ih x'
      constructor
      · rcases List.mem_cons.mp hmem with h | h
        · rcases hx'mem with h' | h'
          · exact List.mem_cons.mpr (Or.inl (h.trans h'))
          · exact List.mem_cons.mpr (Or.inr (List.mem_cons.mpr (Or.inl (h.trans h'))))
        · exact List.mem_cons.mpr (Or.inr (List.mem_cons.mpr (Or.inr h)))
      · intro q hq
        rcases List.mem_cons.mp hq with rfl | hq'
        · exact le_trans (hbound x' (List.mem_cons_self x' t)) hxx.1
        · rcases List.mem_cons.mp hq' with rfl | hq''
          · exact le_trans (hbound x' (List.mem_cons_self x' t)) hxx.2
          · exact hbound q (List.mem_cons_of_mem x' hq'')

/-- Each survivor elimination removes exactly one active team:
`#eliminations + #final = #initial-eliminations + #initial-active`. -/
theorem survivorLoop_count (r : SeasonResults) (weeks : List ℕ) :
    ∀ (active : List String) (elims : List SurvivorElimination),
      (survivorLoop r weeks active elims).2.length
          + (survivorLoop r weeks active elims).1.length
        = elims.length + active.length := by
  induction weeks with
  | nil => intro active elims; simp [survivorLoop, Nat.add_comm]
  | cons w rest ih =>
    intro active elims
    by_cases hlen : active.length ≤ 1
    · simp [survivorLoop, if_pos hlen, Nat.add_comm]
    · cases hsb : r.lookupWeek w with
      | none =>
        simp only [survivorLoop, if_neg hlen, hsb]
        exact ih active elims
      | some sb =>
        cases hmin : minByScore (survivorWeekScores active sb) with
        | none =>
          simp only [survivorLoop, if_neg hlen, hsb, hmin]
          exact ih active elims
        | some et =>
          have hmem : et.1 ∈ active :=
            survivorWeekScores_keys_active active sb et (minByScore_spec _ et hmin).1
          have herase : (active.erase et.1).length = active.length - 1 :=
            List.length_erase_of_mem hmem
          have h1 : 1 ≤ active.length := List.length_pos.mpr
            (List.ne_nil_of_mem hmem)
          simp only [survivorLoop, if_neg hlen, hsb, hmin]
          rw [ih (active.erase et.1) (elims ++ [_])]
          simp only [List.length_append, List.length_singleton, herase]
          omega

/-- The initial survivor set is exactly the team names of the first
scoreboard's matchups. -/
theorem survivorInitialTeams_mem (sb : WeeklyScoreboard) (t : String) :
    t ∈ survivorInitialTeams sb
      ↔ ∃ m ∈ sb.matchups, t = m.team1.team_name ∨ t = m.team2.team_name := by
  unfold survivorInitialTeams
  suffices h : ∀ (ms : List Matchup) (acc : List String),
      t ∈ ms.foldl
          (fun active m => setAdd (setAdd active m.team1.team_name) m.team2.team_name)
          acc
        ↔ t ∈ acc ∨ ∃ m ∈ ms, t = m.team1.team_name ∨ t = m.team2.team_name by
    rw [h sb.matchups []]
    simp
  intro ms
  induction ms with
  | nil => intro acc; simp
  | cons m rest ih =>
    intro acc
    rw [List.foldl_cons, ih]
    rw [mem_setAdd, mem_setAdd]
    constructor
    · rintro ((rfl | rfl | hacc) | ⟨m', hm', hv⟩)
      · exact Or.inr ⟨m, List.mem_cons_self m rest, Or.inr rfl⟩
      · exact Or.inr ⟨m, List.mem_cons_self m rest, Or.inl rfl⟩
      · exact Or.inl hacc
      · exact Or.inr ⟨m', List.mem_cons_of_mem m hm', hv⟩
    · rintro (hacc | ⟨m', hm', hv⟩)
      · exact Or.inl (Or.inr (Or.inr hacc))
      · rcases List.mem_cons.mp hm' with rfl | hm''
        · rcases hv with rfl | rfl
          · exact Or.inl (Or.inr (Or.inl rfl))
          · exact Or.inl (Or.inl rfl)
        · exact Or.inr ⟨m', hm'', hv⟩

/-- Claim C2 (confirmed): the survivor pool — the active set starts as
exactly the first stored week's team names; the loop stops once at most
one team remains, skips weeks without stored data, and otherwise removes
the first minimum-scoring active team, appending a record with the week,
team, score and remaining count; the winner is the sole survivor (else
null); and with a winner the eliminations number the initial teams minus
one. -/
theorem calculate_survivor_results_ok :
    (∀ (sb : WeeklyScoreboard) (t : String),
        t ∈ survivorInitialTeams sb
          ↔ ∃ m ∈ sb.matchups, t = m.team1.team_name ∨ t = m.team2.team_name)
      ∧ (∀ (r : SeasonResults) (w : ℕ) (rest : List ℕ) (active : List String)
          (elims : List SurvivorElimination), active.length ≤ 1 →
          survivorLoop r (w :: rest) active elims = (active, elims))
      ∧ (∀ (r : SeasonResults) (w : ℕ) (rest : List ℕ) (active : List String)
          (elims : List SurvivorElimination), ¬active.length ≤ 1 →
          r.lookupWeek w = none →
          survivorLoop r (w :: rest) active elims = survivorLoop r rest active elims)
      ∧ (∀ (r : SeasonResults) (w : ℕ) (rest : List ℕ) (active : List String)
          (elims : List SurvivorElimination) (sb : WeeklyScoreboard)
          (et : String × ℚ), ¬active.length ≤ 1 →
          r.lookupWeek w = some sb →
          minByScore (survivorWeekScores active sb) = some et →
          et ∈ survivorWeekScores active sb
            ∧ (∀ q ∈ survivorWeekScores active sb, et.2 ≤ q.2)
            ∧ et.1 ∈ active
            ∧ survivorLoop r (w :: rest) active elims
              = survivorLoop r rest (active.erase et.1)
                  (elims ++ [⟨w, et.1, et.2, (active.erase et.1).length⟩]))
      ∧ (∀ (r : SeasonResults) (ew : Option (List ℕ)),
          (calculate_survivor_results r ew).winner
            = (if (calculate_survivor_results r ew).final_active_teams.length = 1 then
                (calculate_survivor_results r ew).final_active_teams.head?
              else none))
      ∧ (∀ (r : SeasonResults) (ew : Option (List ℕ)) (fw : ℕ) (ws : List ℕ)
          (sb : WeeklyScoreboard), r.sortedWeeks = fw :: ws →
          r.lookupWeek fw = some sb →
          (calculate_survivor_results r ew).eliminations.length
              + (calculate_survivor_results r ew).final_active_teams.length
            = (survivorInitialTeams sb).length
          ∧ ((calculate_survivor_results r ew).winner.isSome →
              (calculate_survivor_results r ew).eliminations.length + 1
                = (survivorInitialTeams sb).length))
      ∧ calculate_survivor_results survivorExampleSeason none
        = { winner := some "A", eliminations := [⟨1, "B", 90, 1⟩],
            final_active_teams := ["A"] } := by
  refine ⟨survivorInitialTeams_mem, ?_, ?_, ?_, ?_, ?_, ?_⟩
  · intro r w rest active elims hlen
    unfold survivorLoop
    rw [if_pos hlen]
  · intro r w rest active elims hlen hnone
    simp only [survivorLoop, if_neg hlen, hnone]
  · intro r w rest active elims sb et hlen hsb hmin
    have hspec := minByScore_spec _ et hmin
    refine ⟨hspec.1, hspec.2, survivorWeekScores_keys_active active sb et hspec.1, ?_⟩
    simp only [survivorLoop, if_neg hlen, hsb, hmin]
  · intro r ew
    unfold calculate_survivor_results
    cases h : r.sortedWeeks with
    | nil => rfl
    | cons fw ws => rfl
  · intro r ew fw ws sb hw hsb
    have hcount := survivorLoop_count r (ew.getD r.sortedWeeks)
      (survivorInitialTeams sb) []
    have hres :
        (calculate_survivor_results r ew).final_active_teams
            = (survivorLoop r (ew.getD r.sortedWeeks) (survivorInitialTeams sb) []).1
          ∧ (calculate_survivor_results r ew).eliminations
            = (survivorLoop r (ew.getD r.sortedWeeks) (survivorInitialTeams sb) []).2
          ∧ (calculate_survivor_results r ew).winner
            = (if (survivorLoop r (ew.getD r.sortedWeeks)
                  (survivorInitialTeams sb) []).1.length = 1 then
                (survivorLoop r (ew.getD r.sortedWeeks)
                  (survivorInitialTeams sb) []).1.head?
              else none) := by
      unfold calculate_survivor_results
      rw [hw]
      simp only [SeasonResults.lookupWeek] at hsb
      simp [hsb, SeasonResults.lookupWeek]
    constructor
    · rw [hres.1, hres.2.1]
      simpa using hcount
    · intro hwin
      rw [hres.2.2] at hwin
      by_cases h1 : (survivorLoop r (ew.getD r.sortedWeeks)
          (survivorInitialTeams sb) []).1.length = 1
      · rw [hres.2.1]
        rw [h1] at hcount
        simpa using hcount
      · rw [if_neg h1] at hwin
        exact absurd hwin (by simp)
  · rfl

/-- Claim C2 witness: the loop stops untouched when one team remains, at a
concrete input. -/
theorem calculate_survivor_results_ok_witness :
    survivorLoop survivorExampleSeason [2] ["A"] [] = (["A"], []) :=
  calculate_survivor_results_ok.2.1 survivorExampleSeason 2 [] ["A"] [] (by decide)

/-! ## Claim C6 — power rankings -/

/-- The descending-rating insertion sort produces a descending-sorted
list. -/
theorem powerRankings_sorted_aux (l : List PowerRanking) :
    List.Sorted (fun a b => b.power_rating ≤ a.power_rating)
      (l.insertionSort fun a b => b.power_rating ≤ a.power_rating) := by
  haveI : IsTotal PowerRanking (fun a b => b.power_rating ≤ a.power_rating) :=
    ⟨fun a b => le_total b.power_rating a.power_rating⟩
  haveI : IsTrans PowerRanking (fun a b => b.power_rating ≤ a.power_rating) :=
    ⟨fun _ _ _ hab hbc => le_trans hbc hab⟩
  exact List.sorted_insertionSort _ l

/-- Claim C6 (confirmed): power rankings are sorted descending by the
(rounded) composite rating; every output entry is `mkPowerRanking` of some
accumulated team stats; `mkPowerRanking` applies the claimed formula
`0.4*avg_score + 0.3*(avg_score - avg_opponent_score) +
0.2*(win_percentage*100) + 0.1*avg_margin` with 2-decimal rounding for
scores/margins/rating and 3 decimals for the win percentage; the default
window is the last four stored weeks; and in the worked example A's
rating 74 strictly exceeds B's 30. -/
theorem calculate_power_rankings_ok :
    (∀ (r : SeasonResults) (ws : Option (List ℕ)),
        List.Sorted (fun a b => b.power_rating ≤ a.power_rating)
          (calculate_power_rankings r ws))
      ∧ (∀ (r : SeasonResults) (ws : List ℕ) (e : PowerRanking),
          e ∈ calculate_power_rankings r (some ws) →
          ∃ ns ∈ powerTeamStats r ws, ns.2.scores ≠ []
            ∧ e = mkPowerRanking ns.1 ns.2)
      ∧ (∀ r : SeasonResults,
          calculate_power_rankings r none
            = calculate_power_rankings r
                (some (if r.sortedWeeks.length ≥ 4 then
                  r.sortedWeeks.drop (r.sortedWeeks.length - 4) else r.sortedWeeks)))
      ∧ (∀ (name : String) (st : TeamStats), st.scores ≠ [] →
          (mkPowerRanking name st).power_rating
              = pyRound ((0.4 : ℚ) * (st.scores.sum / st.scores.length)
                  + 0.3 * (st.scores.sum / st.scores.length
                      - st.opponent_scores.sum / st.opponent_scores.length)
                  + 0.2 * (((st.wins : ℚ) / st.scores.length) * 100)
                  + 0.1 * (st.total_margin / st.scores.length)) 2
            ∧ (mkPowerRanking name st).avg_score
              = pyRound (st.scores.sum / st.scores.length) 2
            ∧ (mkPowerRanking name st).avg_opponent_score
              = pyRound (st.opponent_scores.sum / st.opponent_scores.length) 2
            ∧ (mkPowerRanking name st).win_percentage
              = pyRound ((st.wins : ℚ) / st.scores.length) 3
            ∧ (mkPowerRanking name st).avg_margin
              = pyRound (st.total_margin / st.scores.length) 2
            ∧ (mkPowerRanking name st).games_analyzed = st.scores.length)
      ∧ ((calculate_power_rankings powerExampleSeason none).map
            (fun e => (e.team_name, e.power_rating)) = [("A", 74), ("B", 30)]
          ∧ (30 : ℚ) < 74) := by
  refine ⟨?_, ?_, ?_, ?_, ?_, by norm_num⟩
  · intro r ws
    exact powerRankings_sorted_aux _
  · intro r ws e he
    unfold calculate_power_rankings at he
    simp only [Option.getD_some] at he
    rw [List.mem_insertionSort] at he
    rw [List.mem_filterMap] at he
    obtain ⟨⟨name, st⟩, hmem, hf⟩ := he
    dsimp only at hf
    by_cases hs : st.scores.isEmpty = true
    · rw [if_pos hs] at hf; exact Option.noConfusion hf
    · rw [if_neg hs] at hf
      injection hf with hf
      refine ⟨(name, st), hmem, fun hnil => hs ?_, hf.symm⟩
      rw [hnil]; rfl
  · intro r
    rfl
  · intro name st hs
    have hs' : st.scores.isEmpty = false := by
      cases h : st.scores.isEmpty
      · rfl
      · exact absurd (List.isEmpty_iff.mp h) hs
    refine ⟨?_, rfl, rfl, ?_, ?_, rfl⟩
    · unfold mkPowerRanking
      simp only [hs', Bool.false_eq_true, if_false]
      congr 1
      ring
    · unfold mkPowerRanking
      simp only [hs', Bool.false_eq_true, if_false]
    · unfold mkPowerRanking
      simp only [hs', Bool.false_eq_true, if_false]
  · simp only [calculate_power_rankings, powerTeamStats, powerStatsUpdate, mkPowerRanking,
      dictWrite, dictLookup, SeasonResults.sortedWeeks, SeasonResults.lookupWeek,
      powerExampleSeason, mkPostMatchup, mkTeamScore, Matchup.get_team_opponent,
      List.insertionSort, List.orderedInsert, Option.getD_none, Option.getD_some,
      List.foldl_cons, List.foldl_nil, List.map_cons, List.map_nil, List.sum_cons,
      List.sum_nil, List.length_cons, List.length_nil, List.isEmpty_cons,
      String.reduceEq, reduceIte, Nat.reduceLeDiff, List.filterMap_cons,
      List.filterMap_nil, Bool.false_eq_true, if_false, if_true]
    norm_num [pyRound, roundHalfEven]

/-- Claim C6 witness: the formula conjunct applied to concrete accumulated
stats (A's two weeks of the example). -/
theorem calculate_power_rankings_ok_witness :
    (mkPowerRanking "A" ⟨[120, 110], [100, 90], 2, 40⟩).games_analyzed
      = ([120, 110] : List ℚ).length :=
  (calculate_power_rankings_ok.2.2.2.1 "A" ⟨[120, 110], [100, 90], 2, 40⟩
    (by simp)).2.2.2.2.2

/-! ## Claim C7 — detailed matchup starter pairing -/

/-- Looking up the written key in the overwrite branch of a dict
write. -/
theorem dictLookup_map_write {α : Type} (d : List (String × α)) (k : String)
    (v : α) :
    dictLookup k (d.map fun p => if p.1 = k then (k, v) else p)
      = if (dictLookup k d).isSome then some v else none := by
  induction d with
  | nil => rfl
  | cons e rest ih =>
    rw [List.map_cons]
    by_cases he : e.1 = k
    · rw [if_pos he, dictLookup, dictLookup, if_pos he]
      simp
    · rw [if_neg he, dictLookup, if_neg he, dictLookup, if_neg he]
      exact ih

/-- Looking up another key in the overwrite branch of a dict write. -/
theorem dictLookup_map_write_other {α : Type} (d : List (String × α))
    (k q : String) (v : α) (hq : q ≠ k) :
    dictLookup q (d.map fun p => if p.1 = k then (k, v) else p)
      = dictLookup q d := by
  induction d with
  | nil => rfl
  | cons e rest ih =>
    rw [List.map_cons]
    by_cases he : e.1 = k
    · rw [if_pos he, dictLookup, dictLookup,
        if_neg (fun h : (k, v).1 = q => hq (h.symm)),
        if_neg (fun h : e.1 = q => hq (h.symm.trans he))]
      exact ih
    · rw [if_neg he, dictLookup, dictLookup]
      by_cases hqe : e.1 = q
      · rw [if_pos hqe, if_pos hqe]
      · rw [if_neg hqe, if_neg hqe]
        exact ih

/-- Lookup distributes over append, first list first. -/
theorem dictLookup_append {α : Type} (d d' : List (String × α)) (q : String) :
    dictLookup q (d ++ d')
      = if (dictLookup q d).isSome then dictLookup q d else dictLookup q d' := by
  induction d with
  | nil => simp [dictLookup]
  | cons e rest ih =>
    rw [List.cons_append, dictLookup, dictLookup]
    by_cases he : e.1 = q
    · rw [if_pos he, if_pos he]
      simp
    · rw [if_neg he, if_neg he]
      exact ih

/-- Writing a key then reading it back. -/
theorem dictLookup_dictWrite_self {α : Type} (d : List (String × α)) (k : String)
    (v : α) : dictLookup k (dictWrite d k v) = some v := by
  unfold dictWrite
  by_cases hc : (dictLookup k d).isSome
  · rw [if_pos hc, dictLookup_map_write, if_pos hc]
  · rw [if_neg hc, dictLookup_append, if_neg hc, dictLookup, if_pos rfl]

/-- Writing one key leaves every other key's binding unchanged. -/
theorem dictLookup_dictWrite_other {α : Type} (d : List (String × α)) (k q : String)
    (v : α) (hq : q ≠ k) : dictLookup q (dictWrite d k v) = dictLookup q d := by
  unfold dictWrite
  by_cases hc : (dictLookup k d).isSome
  · rw [if_pos hc]
    exact dictLookup_map_write_other d k q v hq
  · rw [if_neg hc, dictLookup_append]
    by_cases hq2 : (dictLookup q d).isSome
    · rw [if_pos hq2]
    · rw [if_neg hq2, Option.not_isSome_iff_eq_none.mp hq2, dictLookup,
        if_neg (fun h : (k, v).1 = q => hq h.symm), dictLookup]

/-- The slot fold's emitted list accumulates onto `out`, and its counter
state is independent of `out`. -/
theorem starterFold_out (g1 g2 : List (String × List PlayerStats))
    (slots : List String) :
    ∀ (counts : List (String × ℕ)) (out : List PositionMatchup),
      (slots.foldl (starterSlotStep g1 g2) (counts, out)).2
          = out ++ (slots.foldl (starterSlotStep g1 g2) (counts, [])).2
        ∧ (slots.foldl (starterSlotStep g1 g2) (counts, out)).1
          = (slots.foldl (starterSlotStep g1 g2) (counts, [])).1 := by
  induction slots with
  | nil => intro counts out; simp
  | cons p rest ih =>
    intro counts out
    simp only [List.foldl_cons]
    have hso : starterSlotStep g1 g2 (counts, out) p
        = (dictWrite counts p ((dictLookup p counts).getD 0 + 1),
           out ++ [slotPairAt g1 g2 p ((dictLookup p counts).getD 0)]) := rfl
    have hse : starterSlotStep g1 g2 (counts, []) p
        = (dictWrite counts p ((dictLookup p counts).getD 0 + 1),
           [slotPairAt g1 g2 p ((dictLookup p counts).getD 0)]) := rfl
    rw [hso, hse]
    obtain ⟨h1a, h1b⟩ := ih (dictWrite counts p ((dictLookup p counts).getD 0 + 1))
      (out ++ [slotPairAt g1 g2 p ((dictLookup p counts).getD 0)])
    obtain ⟨h2a, h2b⟩ := ih (dictWrite counts p ((dictLookup p counts).getD 0 + 1))
      [slotPairAt g1 g2 p ((dictLookup p counts).getD 0)]
    exact ⟨by rw [h1a, h2a, List.append_assoc], by rw [h1b, h2b]⟩

/-- The slot fold over a replicate block emits the by-index pairings from
the current counter value on, and does not change other counters. -/
theorem starterFold_replicate (g1 g2 : List (String × List PlayerStats)) (p : String) :
    ∀ (k : ℕ) (counts : List (String × ℕ)) (out : List PositionMatchup),
      ((List.replicate k p).foldl (starterSlotStep g1 g2) (counts, out)).2
          = out ++ (List.range' ((dictLookup p counts).getD 0) k).map
              (slotPairAt g1 g2 p)
        ∧ ∀ q, q ≠ p →
            dictLookup q ((List.replicate k p).foldl (starterSlotStep g1 g2)
                (counts, out)).1
              = dictLookup q counts := by
  intro k
  induction k with
  | zero => intro counts out; simp
  | succ k ih =>
    intro counts out
    rw [List.replicate_succ, List.foldl_cons]
    have hstep : starterSlotStep g1 g2 (counts, out) p
        = (dictWrite counts p ((dictLookup p counts).getD 0 + 1),
           out ++ [slotPairAt g1 g2 p ((dictLookup p counts).getD 0)]) := rfl
    rw [hstep]
    obtain ⟨ih1, ih2⟩ := ih (dictWrite counts p ((dictLookup p counts).getD 0 + 1))
      (out ++ [slotPairAt g1 g2 p ((dictLookup p counts).getD 0)])
    have hlook : (dictLookup p (dictWrite counts p
          ((dictLookup p counts).getD 0 + 1))).getD 0
        = (dictLookup p counts).getD 0 + 1 := by
      rw [dictLookup_dictWrite_self]; rfl
    constructor
    · rw [ih1, hlook, List.range'_succ, List.map_cons, List.append_assoc,
        List.singleton_append]
    · intro q hq
      rw [ih2 q hq, dictLookup_dictWrite_other _ _ _ _ hq]

/-- The slot fold over concatenated replicate blocks of pairwise-distinct
positions (fresh in the counters) emits the by-index pairing of each
block in order. -/
theorem starterFold_blocks (g1 g2 : List (String × List PlayerStats)) :
    ∀ (ps : List String) (counts : List (String × ℕ)) (out : List PositionMatchup),
      ps.Nodup → (∀ p ∈ ps, dictLookup p counts = none) →
      ((ps.flatMap fun p => List.replicate (slotCount g1 g2 p) p).foldl
          (starterSlotStep g1 g2) (counts, out)).2
        = out ++ ps.flatMap (fun p =>
            (List.range (slotCount g1 g2 p)).map (slotPairAt g1 g2 p)) := by
  intro ps
  induction ps with
  | nil => intro counts out _ _; simp
  | cons p rest ih =>
    intro counts out hnd hnone
    rw [List.flatMap_cons, List.foldl_append]
    obtain ⟨hrep1, hrep2⟩ :=
      starterFold_replicate g1 g2 p (slotCount g1 g2 p) counts out
    have hj : (dictLookup p counts).getD 0 = 0 := by
      rw [hnone p (List.mem_cons_self p rest)]; rfl
    rw [hj] at hrep1
    conv_lhs => rw [← Prod.mk.eta (p := (List.replicate (slotCount g1 g2 p) p).foldl
      (starterSlotStep g1 g2) (counts, out))]
    rw [ih _ _ (List.Nodup.of_cons hnd) ?hrest]
    case hrest =>
      intro q hq
      have hqp : q ≠ p := by
        rintro rfl
        exact (List.nodup_cons.mp hnd).1 hq
      rw [hrep2 q hqp]
      exact hnone q (List.mem_cons_of_mem p hq)
    rw [hrep1, ← List.range_eq_range', List.flatMap_cons, List.append_assoc]

/-- First-seen deduplication produces a duplicate-free list. -/
theorem dedupFirst_nodup (l : List String) : (dedupFirst l).Nodup := by
  unfold dedupFirst
  suffices h : ∀ (acc : List String), acc.Nodup →
      (l.foldl (fun acc x => if x ∈ acc then acc else acc ++ [x]) acc).Nodup from
    h [] List.nodup_nil
  induction l with
  | nil => intro acc hacc; exact hacc
  | cons x rest ih =>
    intro acc hacc
    rw [List.foldl_cons]
    by_cases hx : x ∈ acc
    · rw [if_pos hx]; exact ih acc hacc
    · rw [if_neg hx]
      refine ih _ (List.Nodup.append hacc (List.nodup_singleton x) ?_)
      intro y hy hy'
      rw [List.mem_singleton.mp hy'] at hy
      exact hx hy

/-- Claim C7 (confirmed): the starter comparison of
`DetailedMatchup.create` equals the claimed by-index pairing — slots in
the fixed priority order `QB, RB, WR, TE, W/R/T, K, DEF, IR` followed by
unrecognized codes in first-seen order, the i-th occupants of the two
sides paired with null padding for the excess side; in the worked example
(team1 RBs scoring 10 and 5 against team2's single RB scoring 8) exactly
two RB pairings are produced and the second pairs the 5-point RB against
a null opponent with `points_difference = +5`. -/
theorem detailed_matchup_starter_pairing_ok :
    (∀ t1 t2 : TeamRoster,
        DetailedMatchup.starterMatchups t1 t2 = starterPairingByIndex t1 t2)
      ∧ (∀ (t1 t2 : TeamRoster) (week : ℕ) (mid : Option String),
          (DetailedMatchup.create t1 t2 week mid).starter_matchups
            = DetailedMatchup.starterMatchups t1 t2)
      ∧ DetailedMatchup.starterMatchups rbRoster1 rbRoster2
        = [{ position := "RB", team1_player := some (mkStarter "r10" "RB" 10),
             team2_player := some (mkStarter "r8" "RB" 8) },
           { position := "RB", team1_player := some (mkStarter "r5" "RB" 5),
             team2_player := none }]
      ∧ PositionMatchup.points_difference
          { position := "RB", team1_player := some (mkStarter "r5" "RB" 5),
            team2_player := none } = 5 := by
  refine ⟨?_, fun _ _ _ _ => rfl, rfl, ?_⟩
  · intro t1 t2
    unfold DetailedMatchup.starterMatchups starterPairingByIndex buildStarterMatchups
      sortedPositionsList
    dsimp only
    have hnd : ((position_order.filter
          (· ∈ dedupFirst ((groupBySelectedPosition t1.starters).map Prod.fst
            ++ (groupBySelectedPosition t2.starters).map Prod.fst)))
        ++ ((dedupFirst ((groupBySelectedPosition t1.starters).map Prod.fst
            ++ (groupBySelectedPosition t2.starters).map Prod.fst)).filter
          (· ∉ position_order))).Nodup := by
      refine List.Nodup.append ((by decide : position_order.Nodup).filter _)
        ((dedupFirst_nodup _).filter _) ?_
      intro x hx1 hx2
      have hin : x ∈ position_order := List.mem_of_mem_filter hx1
      have hout : x ∉ position_order := by
        have h2 := (List.mem_filter.mp hx2).2
        simpa using h2
      exact hout hin
    rw [← List.flatMap_append,
      starterFold_blocks _ _ _ [] [] hnd (fun p _ => rfl), List.nil_append]
  · show (5 : ℚ) - 0 = 5
    norm_num
